import Mathlib

/-!
Verification of the COMETS Python toolbox file codec (`comets.py`).

This file gives a shallow embedding of the model-file and layout-file
codec of `comets.py` (the `model` and `layout` classes) and proves or
refutes the stated properties of that codec.

Conventions of the embedding:
* numeric fields are `Rat` (the Python code handles them as floats; all
  properties at stake are exact, not about rounding);
* a pandas `NaN` entry of an optional column is `Option.none`;
* a Python `dict` keyed by grid location is an association list where an
  assignment `d[k] = v` replaces any earlier binding of `k`;
* a raised-and-caught exception is an `Option PErr` diagnostic next to
  the state the handler keeps; a raised-and-uncaught exception is an
  `Except.error`.
-/

namespace Comets

/-- Error kinds: the exception classes declared at the top of comets.py
(`CorruptLine`, `OutOfGrid`, `UnallocatedMetabolite`) plus Python's own
`ValueError`. -/
inductive PErr where
  | corruptLine
  | outOfGrid
  | unallocatedMetabolite
  | valueError
deriving Repr, DecidableEq

/-- One row of `model.reactions` (columns REACTION_NAMES, ID, LB, UB,
EXCH, EXCH_IND, V_MAX, KM, HILL); a `none` in the last three columns is
pandas `NaN`. -/
structure Reaction where
  name : String
  id : Nat
  lb : Rat
  ub : Rat
  exch : Bool
  exchInd : Nat
  vmax : Option Rat
  km : Option Rat
  hill : Option Rat
deriving Repr, DecidableEq

/-! ### BOUNDS section codec (claim C2)

`model.write_comets_model`, comets.py lines 618-625: the BOUNDS body
keeps exactly the reactions whose LB differs from `default_bounds[0]`
or whose UB differs from `default_bounds[1]`. -/

/-- Rows of the written BOUNDS body: `self.reactions.loc[(LB != default0) |
(UB != default1), ['ID','LB','UB']]` (comets.py lines 618-625). -/
def writeBoundsBody (reactions : List Reaction) (d : Rat × Rat) :
    List (Nat × Rat × Rat) :=
  (reactions.filter fun r => r.lb != d.1 || r.ub != d.2).map
    fun r => (r.id, r.lb, r.ub)

/-- The BOUNDS read of `model.read_comets_model`, comets.py lines
429-442: each reaction ID is left-joined against the body rows and a
missing row is filled with the default bounds taken from the BOUNDS
header (`reactions.LB.fillna(default_bounds[0])`, same for UB). -/
def readBoundsMerge (ids : List Nat) (body : List (Nat × Rat × Rat))
    (d : Rat × Rat) : List (Nat × Rat × Rat) :=
  ids.map fun i =>
    match body.find? (fun b => b.1 == i) with
    | some b => (i, b.2.1, b.2.2)
    | none => (i, d.1, d.2)

/-! ### EXCHANGE_REACTIONS index assignment (claim C3) -/

/-- Exchange flag and exchange index assignment of
`model.read_comets_model`, comets.py lines 454-465: `exch` is the list
of integers on the line after the EXCHANGE_REACTIONS header, and each
reaction gets `EXCH = (ID in exch)` and
`EXCH_IND = exch.index(ID)+1 if ID in exch else 0`. -/
def assignExch (ids exch : List Nat) : List (Nat × Bool × Nat) :=
  ids.map fun i =>
    (i, decide (i ∈ exch), if i ∈ exch then exch.indexOf i + 1 else 0)

/-- Exchange index assignment of `model.load_cobra_model`, comets.py
lines 310-313: `exch` is the list of IDs whose EXCH flag is true, in
row order, and `EXCH_IND = exch.index(ID)+1 if ID in exch else 0`.
Input rows are `(ID, EXCH)` pairs; output rows keep the EXCH flag and
add the assigned EXCH_IND. -/
def assignExchCobra (rxns : List (Nat × Bool)) : List (Nat × Bool × Nat) :=
  let exch := (rxns.filter fun r => r.2).map fun r => r.1
  rxns.map fun r =>
    (r.1, r.2, if r.1 ∈ exch then exch.indexOf r.1 + 1 else 0)

/-! ### Local media / refresh / static / initial_pop row loops
(claims C4, C5) -/

/-- Python `int()` applied to a float: truncation toward zero
(T-division of the numerator by the denominator). -/
def pyInt (x : Rat) : Int :=
  x.num.tdiv x.den

/-- Association-list update with Python dict semantics: `d[k] = v`
replaces any earlier binding of `k`. -/
def updateAssoc (k : Int × Int) (v : List (String × Rat))
    (m : List ((Int × Int) × List (String × Rat))) :
    List ((Int × Int) × List (String × Rat)) :=
  (k, v) :: m.filter fun p => p.1 != k

/-- The per-metabolite inner loop of the local media/refresh ingestion
(comets.py lines 1100-1103 and 1147-1149): only the non-zero entries of
the dense tail of the row are stored, keyed by
`all_exchanged_mets[j]`. -/
def nonzeroEntries (mets : List String) (vals : List Rat) :
    List (String × Rat) :=
  (vals.enum.filter fun v => v.2 != 0).map
    fun v => (mets.getD v.1 "", v.2)

/-- One iteration of the local `media` (and, identically, local
`media_refresh`) row loop of `layout.read_comets_layout`, comets.py
lines 1089-1103 (the code block is duplicated verbatim at lines
1059-1073) and lines 1136-1149: arity check (`CorruptLine`), grid check
(`OutOfGrid`), then `local_media[loc] = {}` followed by insertion of
the non-zero values. -/
def mediaRowStep (grid : List Int) (mets : List String) (nmedia : Nat)
    (lm : List ((Int × Int) × List (String × Rat))) (row : List Rat) :
    Except PErr (List ((Int × Int) × List (String × Rat))) :=
  if row.length ≠ nmedia + 2 then
    .error .corruptLine
  else if (grid.getD 0 0 : Rat) ≤ row.getD 0 0 ∨
          (grid.getD 1 0 : Rat) ≤ row.getD 1 0 then
    .error .outOfGrid
  else
    .ok (updateAssoc (pyInt (row.getD 0 0), pyInt (row.getD 1 0))
          (nonzeroEntries mets (row.drop 2)) lm)

/-- The local `media` / `media_refresh` row loop: the whole `for` loop
sits in one `try`, so the first raised exception stops the loop, is
caught, and leaves the entries of the earlier rows in place
(comets.py lines 1088-1110). -/
def mediaSection (grid : List Int) (mets : List String) (nmedia : Nat)
    (lm : List ((Int × Int) × List (String × Rat)))
    (rows : List (List Rat)) :
    List ((Int × Int) × List (String × Rat)) × Option PErr :=
  match rows with
  | [] => (lm, none)
  | r :: rs =>
    match mediaRowStep grid mets nmedia lm r with
    | .error e => (lm, some e)
    | .ok lm₂ => mediaSection grid mets nmedia lm₂ rs

/-- The per-metabolite inner loop of the local `static_media` ingestion
(comets.py lines 1240-1242): the dense tail of the row interleaves
flag/value pairs; a pair whose flag is non-zero stores the value (the
value itself may be zero). -/
def staticNonzero (mets : List String) (vals : List Rat) :
    List (String × Rat) :=
  ((List.range (vals.length / 2)).filter
      fun j => vals.getD (2 * j) 0 != 0).map
    fun j => (mets.getD j "", vals.getD (2 * j + 1) 0)

/-- One iteration of the local `static_media` row loop of
`layout.read_comets_layout`, comets.py lines 1229-1242: arity check
against `2*len(self.media.metabolite)+2` (`CorruptLine`), grid check
(`OutOfGrid`), then `local_static[loc] = {}` and insertion of the
flagged pairs. -/
def staticRowStep (grid : List Int) (mets : List String) (nmedia : Nat)
    (ls : List ((Int × Int) × List (String × Rat))) (row : List Rat) :
    Except PErr (List ((Int × Int) × List (String × Rat))) :=
  if row.length ≠ 2 * nmedia + 2 then
    .error .corruptLine
  else if (grid.getD 0 0 : Rat) ≤ row.getD 0 0 ∨
          (grid.getD 1 0 : Rat) ≤ row.getD 1 0 then
    .error .outOfGrid
  else
    .ok (updateAssoc (pyInt (row.getD 0 0), pyInt (row.getD 1 0))
          (staticNonzero mets (row.drop 2)) ls)

/-- The local `static_media` row loop (comets.py lines 1228-1249): one
`try` around the whole loop, first exception stops it and is caught. -/
def staticSection (grid : List Int) (mets : List String) (nmedia : Nat)
    (ls : List ((Int × Int) × List (String × Rat)))
    (rows : List (List Rat)) :
    List ((Int × Int) × List (String × Rat)) × Option PErr :=
  match rows with
  | [] => (ls, none)
  | r :: rs =>
    match staticRowStep grid mets nmedia ls r with
    | .error e => (ls, some e)
    | .ok ls₂ => staticSection grid mets nmedia ls₂ rs

/-- One iteration of the `initial_pop` row loop of
`layout.read_comets_layout`, comets.py lines 978-996: arity check
(`CorruptLine`), grid check (`OutOfGrid`), then each non-zero
per-model amount appends an `[x, y, amount]` triple to that model's
population list.  Coordinates stay the parsed floats. -/
def initPopRowStep (grid : List Int) (nModels : Nat)
    (acc : List (List (Rat × Rat × Rat))) (row : List Rat) :
    Except PErr (List (List (Rat × Rat × Rat))) :=
  if (row.length : Int) - 2 ≠ nModels then
    .error .corruptLine
  else if (grid.getD 0 0 : Rat) ≤ row.getD 0 0 ∨
          (grid.getD 1 0 : Rat) ≤ row.getD 1 0 then
    .error .outOfGrid
  else
    .ok (acc.mapIdx fun j l =>
      if row.getD (j + 2) 0 != 0 then
        l ++ [(row.getD 0 0, row.getD 1 0, row.getD (j + 2) 0)]
      else l)

/-- The `initial_pop` row loop (comets.py lines 977-1002): one `try`
around the whole loop, first exception stops it and is caught. -/
def initPopSection (grid : List Int) (nModels : Nat)
    (acc : List (List (Rat × Rat × Rat))) (rows : List (List Rat)) :
    List (List (Rat × Rat × Rat)) × Option PErr :=
  match rows with
  | [] => (acc, none)
  | r :: rs =>
    match initPopRowStep grid nModels acc r with
    | .error e => (acc, some e)
    | .ok acc₂ => initPopSection grid nModels acc₂ rs

/-! ### Required-section failure modes (claim C6) -/

/-- The grid_size step of `layout.read_comets_layout`, comets.py lines
929-935: `self.grid` is assigned the parsed integer list first; a
`CorruptLine` raised when fewer than two dimensions were given is
caught by the surrounding `except CorruptLine` and only printed, so the
step never propagates an exception — the first component is always
`Except.ok` and the second records the printed diagnostic. -/
def gridStep (tokens : List Int) : Except PErr (List Int) × Option PErr :=
  if tokens.length < 2 then (.ok tokens, some .corruptLine)
  else (.ok tokens, none)

/-- Value of a decimal digit character. -/
def digitVal (c : Char) : Option Nat :=
  if '0' ≤ c ∧ c ≤ '9' then some (c.toNat - '0'.toNat) else none

/-- Decimal digit-string parse; `none` on the empty string or any
non-digit character. -/
def parseDigits (l : List Char) : Option Nat :=
  if l.isEmpty then none
  else
    l.foldl
      (fun acc c =>
        match acc, digitVal c with
        | some n, some d => some (n * 10 + d)
        | _, _ => none)
      (some 0)

/-- Python `int(token)` on an already-stripped token: optional leading
minus sign, then decimal digits; `none` models the raised
`ValueError`. -/
def pyParseInt (s : String) : Option Int :=
  match s.data with
  | '-' :: rest => (parseDigits rest).map fun n => -(n : Int)
  | l => (parseDigits l).map fun n => (n : Int)

/-- The OBJECTIVE step of `model.read_comets_model`, comets.py lines
531-534: `self.objective = int(m_f_lines[lin_obj].strip())`.  The
`int()` call sits in no `try`, so a malformed line raises an uncaught
`ValueError` that aborts the whole parse: the step is `Except.error` on
a non-integer token. -/
def parseObjective (token : String) : Except PErr Int :=
  match pyParseInt token with
  | some n => .ok n
  | none => .error .valueError

/-! ### substrate_layout region map (claim C9) -/

/-- The substrate_layout step of `layout.read_comets_layout`, comets.py
lines 1160-1177, on a rectangular parsed region map: `__region_flag`
is reset to False before the `try`; the parsed integer map is compared
by shape against `tuple(self.grid)`; a mismatch raises `CorruptLine`,
which is caught and printed, leaving the flag False and `region_map`
at its previous value; only on a match are the flag and map set. -/
def substrateLayoutSection (grid : List Int)
    (regionMap0 : Option (List (List Int))) (rows : List (List Int)) :
    Bool × Option (List (List Int)) × Option PErr :=
  if (rows.length : Int) = grid.getD 0 0 ∧
     ∀ r ∈ rows, (r.length : Int) = grid.getD 1 0 then
    (true, some rows, none)
  else
    (false, regionMap0, some .corruptLine)

/-! ### set_global_periodic_media (claim C10) -/

/-- The slice of the layout state read and written by
`layout.set_global_periodic_media`: the `metabolite` column of
`self.media` (in row order, so the positional index is the pandas
index), the `periodic_media` list and the `__periodic_media_flag`. -/
structure LayoutPM where
  media : List String
  periodic_media : List (Nat × String × Rat × Rat × Rat × Rat)
  periodicFlag : Bool
deriving Repr, DecidableEq

/-- `layout.set_global_periodic_media`, comets.py lines 903-916: raise
`ValueError` if the metabolite is not in the media table; raise
`ValueError` if the waveform name is unknown; otherwise append one
forcing term `[media index of metabolite, function, amplitude, period,
phase, offset]` and set the flag.  Both raises happen before any
mutation, so an error leaves the layout untouched. -/
def set_global_periodic_media (l : LayoutPM) (metabolite waveform : String)
    (amplitude period phase offset : Rat) : Except String LayoutPM :=
  if metabolite ∉ l.media then
    .error "the metabolite is not present in the media"
  else if waveform ∉ ["step", "sin", "cos", "half_sin", "half_cos"] then
    .error (waveform ++ ": function unknown")
  else
    .ok { l with
      periodic_media := l.periodic_media ++
        [(l.media.indexOf metabolite, waveform, amplitude, period, phase,
          offset)],
      periodicFlag := true }

/-! ### The full model entity and its writer (claims C1, C7, C8) -/

/-- `self.convection_parameters` as built by
`model.add_convection_parameters` (comets.py lines 210-228); the
Python dict preserves this insertion order of the four keys. -/
structure ConvParams where
  packedDensity : Rat
  elasticModulus : Rat
  frictionConstant : Rat
  convDiffConstant : Rat
deriving Repr, DecidableEq

/-- `self.nonlinear_diffusion_parameters` as built by
`model.add_nonlinear_diffusion_parameters` (comets.py lines 172-191);
the Python dict preserves this insertion order of the five keys. -/
structure NonlinParams where
  convNonLinDiffZero : Rat
  convNonlinDiffN : Rat
  convNonlinDiffExponent : Rat
  convNonlinDiffHillN : Rat
  convNonlinDiffHillK : Rat
deriving Repr, DecidableEq

/-- One row of `self.signals` as serialized by `model.write_comets_model`
(comets.py lines 719-736): REACTION_NUMBER (a number string or
'death'), EXCH_IND, BOUND, FUNCTION, then the parameter list. -/
structure SignalRow where
  reaction_number : String
  exch_ind : Nat
  bound : String
  func : String
  parameters : List Rat
deriving Repr, DecidableEq

/-- The fields of a `model` object that `model.write_comets_model`
reads (comets.py lines 92-127 for the constructor defaults, lines
610-761 for the writer).  `smat` rows are
`(metabolite index, reaction ID, coefficient)`. -/
structure ModelE where
  id : String
  reactions : List Reaction
  metabolites : List String
  smat : List (Nat × Nat × Rat)
  objective : Int
  obj_style : String
  optimizer : String
  default_bounds : Rat × Rat
  default_vmax : Rat
  default_km : Rat
  default_hill : Rat
  vmax_flag : Bool
  km_flag : Bool
  hill_flag : Bool
  light_flag : Bool
  light : List (String × Rat × Rat)
  signals : List SignalRow
  convection_flag : Bool
  convection_parameters : ConvParams
  nonlinear_diffusion_flag : Bool
  nonlinear_diffusion_parameters : NonlinParams
  noise_variance_flag : Bool
  noise_variance : Rat
  neutral_drift_flag : Bool
  neutralDriftSigma : Rat
deriving Repr, DecidableEq

/-- Rendering of a numeric value; stands in for Python `str()` of a
number (the claims at stake are about section structure and keyword
choice, not about decimal formatting, which the round-trip property
itself only requires up to float precision). -/
def ratStr (q : Rat) : String :=
  if q.den = 1 then toString q.num
  else toString q.num ++ "/" ++ toString q.den

/-- One rendered SMATRIX body row: fields joined by three spaces and
prefixed by four (comets.py lines 631-633). -/
def smatLine (s : Nat × Nat × Rat) : String :=
  "    " ++ toString s.1 ++ "   " ++ toString s.2.1 ++ "   " ++ ratStr s.2.2

/-- One rendered BOUNDS body row (comets.py lines 618-625). -/
def boundLine (b : Nat × Rat × Rat) : String :=
  "    " ++ toString b.1 ++ "   " ++ ratStr b.2.1 ++ "   " ++ ratStr b.2.2

/-- Rendered VMAX_VALUES body (comets.py lines 639-644): the rows with
a non-NaN V_MAX, as `EXCH_IND   value`, indented. -/
def vmaxRows (m : ModelE) : List String :=
  m.reactions.filterMap fun r =>
    r.vmax.map fun v => "    " ++ toString r.exchInd ++ "   " ++ ratStr v

/-- Rendered KM_VALUES body (comets.py lines 646-651). -/
def kmRows (m : ModelE) : List String :=
  m.reactions.filterMap fun r =>
    r.km.map fun v => "    " ++ toString r.exchInd ++ "   " ++ ratStr v

/-- Rendered HILL_VALUES body (comets.py lines 653-658). -/
def hillRows (m : ModelE) : List String :=
  m.reactions.filterMap fun r =>
    r.hill.map fun v => "    " ++ toString r.exchInd ++ "   " ++ ratStr v

/-- One rendered LIGHT body row, `'    {} {} {}'` with the reaction's
ID looked up by name (comets.py lines 710-717). -/
def lightLine (m : ModelE) (l : String × Rat × Rat) : String :=
  "    " ++
    toString (((m.reactions.find? fun r => r.name == l.1).map
      fun r => r.id).getD 0) ++
    " " ++ ratStr l.2.1 ++ " " ++ ratStr l.2.2

/-- One rendered MET_REACTION_SIGNAL body row, space-separated
(`to_csv(sep=' ')`, comets.py lines 724-735). -/
def renderSignal (s : SignalRow) : String :=
  s.reaction_number ++ " " ++ toString s.exch_ind ++ " " ++ s.bound ++
    " " ++ s.func ++
    String.join (s.parameters.map fun p => " " ++ ratStr p)

/-- SMATRIX section lines (comets.py lines 665-668). -/
def smatChunk (m : ModelE) : List String :=
  ("SMATRIX  " ++ toString m.metabolites.length ++ "  " ++
      toString m.reactions.length) ::
    (m.smat.map smatLine ++ ["//"])

/-- BOUNDS section lines (comets.py lines 670-674); the header carries
the default bounds and the body is the sparse `writeBoundsBody`. -/
def boundsChunk (m : ModelE) : List String :=
  ("BOUNDS " ++ ratStr m.default_bounds.1 ++ " " ++
      ratStr m.default_bounds.2) ::
    ((writeBoundsBody m.reactions m.default_bounds).map boundLine ++
      ["//"])

/-- OBJECTIVE section lines (comets.py lines 676-678). -/
def objectiveChunk (m : ModelE) : List String :=
  ["OBJECTIVE", "    " ++ toString m.objective, "//"]

/-- METABOLITE_NAMES section lines (comets.py lines 680-682). -/
def metNamesChunk (m : ModelE) : List String :=
  "METABOLITE_NAMES" ::
    (m.metabolites.map (fun n => "    " ++ n) ++ ["//"])

/-- REACTION_NAMES section lines (comets.py lines 684-686). -/
def rxnNamesChunk (m : ModelE) : List String :=
  "REACTION_NAMES" ::
    (m.reactions.map (fun r => "    " ++ r.name) ++ ["//"])

/-- EXCHANGE_REACTIONS section lines (comets.py lines 688-690). -/
def exchChunk (m : ModelE) : List String :=
  ["EXCHANGE_REACTIONS",
   " " ++ String.intercalate " "
     ((m.reactions.filter fun r => r.exch).map fun r => toString r.id),
   "//"]

/-- VMAX_VALUES section lines, present under `vmax_flag`
(comets.py lines 692-696). -/
def vmaxChunk (m : ModelE) : List String :=
  if m.vmax_flag then
    ("VMAX_VALUES " ++ ratStr m.default_vmax) :: (vmaxRows m ++ ["//"])
  else []

/-- KM_VALUES section lines, present under `km_flag`
(comets.py lines 698-702). -/
def kmChunk (m : ModelE) : List String :=
  if m.km_flag then
    ("KM_VALUES " ++ ratStr m.default_km) :: (kmRows m ++ ["//"])
  else []

/-- HILL_VALUES section lines, present under `hill_flag`
(comets.py lines 704-708); note the keyword written is HILL_VALUES. -/
def hillChunk (m : ModelE) : List String :=
  if m.hill_flag then
    ("HILL_VALUES " ++ ratStr m.default_hill) :: (hillRows m ++ ["//"])
  else []

/-- LIGHT section lines, present under `light_flag`
(comets.py lines 710-717). -/
def lightChunk (m : ModelE) : List String :=
  if m.light_flag then
    "LIGHT" :: (m.light.map (lightLine m) ++ ["//"])
  else []

/-- MET_REACTION_SIGNAL section lines, present when `signals` has rows
(comets.py lines 719-736). -/
def signalsChunk (m : ModelE) : List String :=
  if m.signals.isEmpty then []
  else "MET_REACTION_SIGNAL" :: (m.signals.map renderSignal ++ ["//"])

/-- Convection-parameter sections, present under `convection_flag`:
one key-value section per dict entry, each with its own terminator
(comets.py lines 738-741). -/
def convectionChunk (m : ModelE) : List String :=
  if m.convection_flag then
    [ "packedDensity " ++ ratStr m.convection_parameters.packedDensity,
      "//",
      "elasticModulus " ++ ratStr m.convection_parameters.elasticModulus,
      "//",
      "frictionConstant " ++
        ratStr m.convection_parameters.frictionConstant,
      "//",
      "convDiffConstant " ++
        ratStr m.convection_parameters.convDiffConstant,
      "//" ]
  else []

/-- Nonlinear-diffusion-parameter sections, present under
`nonlinear_diffusion_flag` (comets.py lines 743-746). -/
def nonlinChunk (m : ModelE) : List String :=
  if m.nonlinear_diffusion_flag then
    [ "convNonLinDiffZero " ++
        ratStr m.nonlinear_diffusion_parameters.convNonLinDiffZero,
      "//",
      "convNonlinDiffN " ++
        ratStr m.nonlinear_diffusion_parameters.convNonlinDiffN,
      "//",
      "convNonlinDiffExponent " ++
        ratStr m.nonlinear_diffusion_parameters.convNonlinDiffExponent,
      "//",
      "convNonlinDiffHillN " ++
        ratStr m.nonlinear_diffusion_parameters.convNonlinDiffHillN,
      "//",
      "convNonlinDiffHillK " ++
        ratStr m.nonlinear_diffusion_parameters.convNonlinDiffHillK,
      "//" ]
  else []

/-- noiseVariance section lines, present under `noise_variance_flag`
(comets.py lines 748-751). -/
def noiseChunk (m : ModelE) : List String :=
  if m.noise_variance_flag then
    ["noiseVariance " ++ ratStr m.noise_variance, "//"]
  else []

/-- neutralDrift and neutralDriftSigma sections, present under
`neutral_drift_flag` (comets.py lines 753-755). -/
def neutralChunk (m : ModelE) : List String :=
  if m.neutral_drift_flag then
    ["neutralDrift true", "//",
     "neutralDriftSigma " ++ ratStr m.neutralDriftSigma, "//"]
  else []

/-- OBJECTIVE_STYLE section lines (comets.py lines 757-758). -/
def objStyleChunk (m : ModelE) : List String :=
  ["OBJECTIVE_STYLE", m.obj_style, "//"]

/-- OPTIMIZER section lines (comets.py lines 760-761). -/
def optimizerChunk (m : ModelE) : List String :=
  ["OPTIMIZER " ++ m.optimizer, "//"]

/-- The full line sequence written by `model.write_comets_model`,
comets.py lines 663-761, as the concatenation of the `f.write` blocks
in source order.  Every `f.write(r'//' + '\n')` is a `"//"` line. -/
def writeModelLines (m : ModelE) : List String :=
  smatChunk m ++ boundsChunk m ++ objectiveChunk m ++ metNamesChunk m ++
    rxnNamesChunk m ++ exchChunk m ++ vmaxChunk m ++ kmChunk m ++
    hillChunk m ++ lightChunk m ++ signalsChunk m ++ convectionChunk m ++
    nonlinChunk m ++ noiseChunk m ++ neutralChunk m ++ objStyleChunk m ++
    optimizerChunk m

/-! ### Substring-based optional-section detection of
`model.read_comets_model` (claim C1) -/

/-- Sublist-at-any-offset test over character lists. -/
def containsSub (l pat : List Char) : Bool :=
  (List.range (l.length + 1)).any fun i => pat.isPrefixOf (l.drop i)

/-- Python `pat in s` on strings: substring containment. -/
def strContainsSub (s pat : String) : Bool :=
  containsSub s.data pat.data

/-- The `m_filedata_string` of `model.read_comets_model` (comets.py
line 395): the non-blank lines joined with the line separator. -/
def linesepJoin (lines : List String) : String :=
  String.intercalate "\n" lines

/-- The hill-section detection of `model.read_comets_model`, comets.py
line 511: the hill flag is set iff the literal keyword
`HILL_COEFFICIENTS` occurs in the file data. -/
def readHillFlagOfFile (lines : List String) : Bool :=
  strContainsSub (linesepJoin lines) "HILL_COEFFICIENTS"

/-! ### Layout exchange-metabolite ordering (claim C8) -/

/-- `model.get_exchange_metabolites` (comets.py lines 237-244): the
exchange reactions' IDs are inner-joined against the stoichiometric
matrix and each matching row's metabolite index is mapped to its
1-based name. -/
def get_exchange_metabolites (m : ModelE) : List String :=
  ((m.reactions.filter fun r => r.exch).map fun r => r.id).flatMap
    fun i =>
      (m.smat.filter fun s => s.2.1 == i).map
        fun s => m.metabolites.getD (s.1 - 1) ""

/-- `layout.build_exchanged_mets` (comets.py lines 1694-1701): the
models' exchange metabolite name lists are concatenated,
deduplicated (`set`) and sorted (`sorted`, i.e. by code points). -/
def build_exchanged_mets (models : List ModelE) : List String :=
  List.insertionSort (fun a b => a.data ≤ b.data)
    (models.flatMap get_exchange_metabolites).dedup

/-- `layout.__get_met_number` (comets.py lines 1711-1715): the first
position of the name in `all_exchanged_mets`. -/
def get_met_number (mets : List String) (met : String) : Nat :=
  mets.indexOf met

/-- The per-location amount vector built by
`layout.__write_local_media_chunk` (comets.py lines 1441-1459): a zero
vector over all exchanged metabolites, with each override value placed
at its metabolite's `__get_met_number` position. -/
def write_local_media_row_amounts (mets : List String)
    (ov : List (String × Rat)) : List Rat :=
  ov.foldl (fun acc p => acc.set (get_met_number mets p.1) p.2)
    (List.replicate mets.length 0)

/-! ### Section-structure predicate for the written model file
(claim C7) -/

/-- The line is a header for the keyword: it is the keyword alone, or
the keyword followed by a space and the inline header values. -/
def HeaderFor (kw line : String) : Prop :=
  line = kw ∨ ∃ rest, line = kw ++ " " ++ rest

/-- The line sequence decomposes into consecutive sections, one per
keyword in order: each section is a header line for its keyword,
body lines none of which is the marker, and a terminating `"//"`
marker line. -/
inductive SectionsInOrder : List String → List String → Prop
  | nil : SectionsInOrder [] []
  | sec (kw h : String) (body rest kws : List String) :
      HeaderFor kw h → (∀ l ∈ body, l ≠ "//") →
      SectionsInOrder rest kws →
      SectionsInOrder (h :: (body ++ "//" :: rest)) (kw :: kws)

/-- The canonical keyword order claimed for
`model.write_comets_model`: the six mandatory sections, the optional
sections under their flags, then OBJECTIVE_STYLE and OPTIMIZER. -/
def expectedHeaders (m : ModelE) : List String :=
  ["SMATRIX", "BOUNDS", "OBJECTIVE", "METABOLITE_NAMES",
   "REACTION_NAMES", "EXCHANGE_REACTIONS"] ++
  (if m.vmax_flag then ["VMAX_VALUES"] else []) ++
  (if m.km_flag then ["KM_VALUES"] else []) ++
  (if m.hill_flag then ["HILL_VALUES"] else []) ++
  (if m.light_flag then ["LIGHT"] else []) ++
  (if m.signals.isEmpty then [] else ["MET_REACTION_SIGNAL"]) ++
  (if m.convection_flag then
    ["packedDensity", "elasticModulus", "frictionConstant",
     "convDiffConstant"] else []) ++
  (if m.nonlinear_diffusion_flag then
    ["convNonLinDiffZero", "convNonlinDiffN", "convNonlinDiffExponent",
     "convNonlinDiffHillN", "convNonlinDiffHillK"] else []) ++
  (if m.noise_variance_flag then ["noiseVariance"] else []) ++
  (if m.neutral_drift_flag then ["neutralDrift", "neutralDriftSigma"]
   else []) ++
  ["OBJECTIVE_STYLE", "OPTIMIZER"]

/-! ## Helper lemmas -/

/-- In a duplicate-free list, mapping every element to its own first
index enumerates `0, 1, …, length-1`. -/
theorem map_indexOf_self (l : List Nat) (h : l.Nodup) :
    l.map (fun a => l.indexOf a) = List.range l.length := by
  induction l with
  | nil => simp
  | cons a t ih =>
    rcases List.nodup_cons.mp h with ⟨ha, ht⟩
    simp only [List.map_cons, List.indexOf_cons_self, List.length_cons]
    rw [List.range_succ_eq_map]
    congr 1
    have h1 : t.map (fun b => (a :: t).indexOf b)
        = t.map (fun b => t.indexOf b + 1) := by
      apply List.map_congr_left
      intro b hb
      have hba : b ≠ a := fun hc => ha (hc ▸ hb)
      rw [List.indexOf_cons_ne _ (fun hc => hba hc.symm)]
    rw [h1, ← ih ht]
    simp only [List.map_map]
    rfl

/-- In a duplicate-free list, mapping every element to its own first
index plus one enumerates `1, …, length`. -/
theorem map_indexOf_succ (l : List Nat) (h : l.Nodup) :
    l.map (fun a => l.indexOf a + 1) = List.range' 1 l.length := by
  have h2 : l.map (fun a => l.indexOf a + 1)
      = (l.map (fun a => l.indexOf a)).map (· + 1) := by
    simp only [List.map_map]; rfl
  rw [h2, map_indexOf_self l h, List.range'_eq_map_range]
  exact List.map_congr_left (fun a _ => Nat.add_comm a 1)

/-- Filtering a duplicate-free list by membership in a duplicate-free
sublist-set is a permutation of that set. -/
theorem filter_mem_perm (ids exch : List Nat) (hids : ids.Nodup)
    (hex : exch.Nodup) (hsub : ∀ e ∈ exch, e ∈ ids) :
    (ids.filter (fun i => decide (i ∈ exch))).Perm exch := by
  rw [List.perm_iff_count]
  intro a
  by_cases ha : a ∈ exch
  · rw [List.count_filter (by simpa using ha)]
    rw [List.count_eq_of_nodup hids, List.count_eq_of_nodup hex]
    simp [ha, hsub a ha]
  · rw [List.count_eq_zero_of_not_mem ha, List.count_eq_zero_of_not_mem]
    simp [List.mem_filter, ha]

/-! ## Claim C2 -/

/-- Claim C2: `model.write_comets_model` emits a BOUNDS body row only
for reactions whose bound pair differs from `default_bounds` — in
particular a model whose bounds all equal the default yields an empty
BOUNDS body — and `model.read_comets_model` assigns every reaction
absent from the BOUNDS body exactly the default lower and upper bounds
taken from the BOUNDS header. -/
theorem bounds_default_sparsity (d : Rat × Rat) (rs : List Reaction)
    (ids : List Nat) (body : List (Nat × Rat × Rat)) (i : Nat)
    (hall : ∀ r ∈ rs, r.lb = d.1 ∧ r.ub = d.2)
    (hid : i ∈ ids) (habs : ∀ b ∈ body, b.1 ≠ i) :
    writeBoundsBody rs d = []
    ∧ (i, d.1, d.2) ∈ readBoundsMerge ids body d
    ∧ (∀ e ∈ readBoundsMerge ids body d, e.1 = i → e = (i, d.1, d.2))
    ∧ (∀ rs₂ : List Reaction, ∀ b ∈ writeBoundsBody rs₂ d,
        ∃ r ∈ rs₂, b = (r.id, r.lb, r.ub) ∧ (r.lb ≠ d.1 ∨ r.ub ≠ d.2)) := by
  have hfind : body.find? (fun b => b.1 == i) = none := by
    rw [List.find?_eq_none]
    intro b hb
    simpa using habs b hb
  refine ⟨?_, ?_, ?_, ?_⟩
  · unfold writeBoundsBody
    have hnil : rs.filter (fun r => r.lb != d.1 || r.ub != d.2) = [] := by
      rw [List.filter_eq_nil_iff]
      intro r hr
      rcases hall r hr with ⟨h1, h2⟩
      simp [h1, h2]
    rw [hnil]; rfl
  · unfold readBoundsMerge
    have hm := List.mem_map_of_mem
      (fun j => match body.find? (fun b => b.1 == j) with
        | some b => (j, b.2.1, b.2.2)
        | none => (j, d.1, d.2)) hid
    simp only [hfind] at hm
    exact hm
  · intro e he hei
    unfold readBoundsMerge at he
    rcases List.mem_map.mp he with ⟨j, hj, hje⟩
    have hj1 : e.1 = j := by
      cases hfj : body.find? (fun b => b.1 == j) with
      | some b => rw [hfj] at hje; rw [← hje]
      | none => rw [hfj] at hje; rw [← hje]
    have hji : j = i := by rw [← hj1, hei]
    rw [hji] at hje
    rw [hfind] at hje
    exact hje.symm
  · intro rs₂ b hb
    unfold writeBoundsBody at hb
    rcases List.mem_map.mp hb with ⟨r, hr, hrb⟩
    refine ⟨r, List.mem_of_mem_filter hr, hrb.symm, ?_⟩
    have hfl := List.of_mem_filter hr
    by_contra hc
    push_neg at hc
    simp [hc.1, hc.2] at hfl

/-- Witness for claim C2 at a one-reaction model with default bounds
`(0, 1000)` and a BOUNDS body mentioning only reaction 2. -/
theorem bounds_default_sparsity_witness :
    writeBoundsBody [⟨"r1", 1, 0, 1000, true, 1, none, none, none⟩]
        (0, 1000) = []
    ∧ ((1 : Nat), (0 : Rat), (1000 : Rat)) ∈
        readBoundsMerge [1, 2] [(2, 5, 7)] (0, 1000) := by
  have h := bounds_default_sparsity (0, 1000)
    [⟨"r1", 1, 0, 1000, true, 1, none, none, none⟩]
    [1, 2] [(2, 5, 7)] 1 (by decide) (by decide) (by decide)
  exact ⟨h.1, h.2.1⟩

/-! ## Claim C3 -/

/-- Counterexample to claim C3 as stated: the file whose reaction IDs
are `1, 2` and whose EXCHANGE_REACTIONS line is `5 1` (the entry `5`
matches no reaction) is accepted by `model.read_comets_model`, flags
only reaction 1 as exchange (`E = 1`), yet assigns it exchange index
`2`, so the map from exchange reactions to their EXCH_IND is not a
bijection onto `1..E`. -/
theorem exchange_index_bijection_cex :
    ¬ ((((assignExch [1, 2] [5, 1]).filter fun r => r.2.1).map
          fun r => r.2.2).Perm
        (List.range' 1
          ((assignExch [1, 2] [5, 1]).filter fun r => r.2.1).length)) := by
  decide

/-- Claim C3, amended: in a model produced by `model.read_comets_model`
the map from exchange-flagged reactions to their EXCH_IND is a
bijection onto `1..E` (with non-exchange reactions mapped to 0 and the
indices assigned in EXCHANGE_REACTIONS line order) provided the
EXCHANGE_REACTIONS line lists distinct IDs that all occur among the
reaction IDs; for `model.load_cobra_model` the same holds whenever the
reaction IDs are distinct, with indices assigned in reaction-row order
among the exchange-flagged reactions. -/
theorem exchange_index_assignment (ids exch : List Nat)
    (rxns : List (Nat × Bool)) (hids : ids.Nodup) (hex : exch.Nodup)
    (hsub : ∀ e ∈ exch, e ∈ ids)
    (hrx : (rxns.map Prod.fst).Nodup) :
    ((((assignExch ids exch).filter fun r => r.2.1).map
        fun r => r.2.2).Perm
      (List.range' 1
        ((assignExch ids exch).filter fun r => r.2.1).length))
    ∧ (∀ r ∈ assignExch ids exch, r.2.1 = false → r.2.2 = 0)
    ∧ (∀ r ∈ assignExch ids exch, r.2.1 = true →
        r.2.2 = exch.indexOf r.1 + 1)
    ∧ (((assignExchCobra rxns).filter fun r => r.2.1).map
        (fun r => r.2.2)
        = List.range' 1
            ((assignExchCobra rxns).filter fun r => r.2.1).length)
    ∧ (∀ r ∈ assignExchCobra rxns, r.2.1 = false → r.2.2 = 0) := by
  refine ⟨?_, ?_, ?_, ?_, ?_⟩
  · have hfm : (assignExch ids exch).filter (fun r => r.2.1)
        = (ids.filter (fun i => decide (i ∈ exch))).map
            (fun i => (i, decide (i ∈ exch),
              if i ∈ exch then exch.indexOf i + 1 else 0)) := by
      unfold assignExch
      rw [List.filter_map]
      rfl
    rw [hfm, List.map_map, List.length_map]
    have hperm := filter_mem_perm ids exch hids hex hsub
    have hlen : (ids.filter (fun i => decide (i ∈ exch))).length
        = exch.length := hperm.length_eq
    rw [hlen]
    have hcongr : (ids.filter (fun i => decide (i ∈ exch))).map
        ((fun (r : Nat × Bool × Nat) => r.2.2) ∘
          (fun i => (i, decide (i ∈ exch),
            if i ∈ exch then exch.indexOf i + 1 else 0)))
        = (ids.filter (fun i => decide (i ∈ exch))).map
            (fun i => exch.indexOf i + 1) := by
      apply List.map_congr_left
      intro b hb
      have hbe : b ∈ exch := by
        have hof := List.of_mem_filter hb
        simpa using hof
      simp [hbe]
    rw [hcongr]
    have h3 : ((ids.filter (fun i => decide (i ∈ exch))).map
        (fun i => exch.indexOf i + 1)).Perm
        (exch.map (fun i => exch.indexOf i + 1)) := hperm.map _
    rw [map_indexOf_succ exch hex] at h3
    exact h3
  · intro r hr hrf
    unfold assignExch at hr
    rcases List.mem_map.mp hr with ⟨i, _, hir⟩
    have hni : i ∉ exch := by
      rw [← hir] at hrf
      simpa using hrf
    rw [← hir]
    simp [hni]
  · intro r hr hrt
    unfold assignExch at hr
    rcases List.mem_map.mp hr with ⟨i, _, hir⟩
    have hmi : i ∈ exch := by
      rw [← hir] at hrt
      simpa using hrt
    rw [← hir]
    simp [hmi]
  · have hexnd : ((rxns.filter fun r => r.2).map
        (fun r => r.1)).Nodup := by
      apply List.Nodup.sublist _ hrx
      exact List.Sublist.map Prod.fst (List.filter_sublist rxns)
    have hflt : (assignExchCobra rxns).filter (fun r => r.2.1)
        = (rxns.filter (fun r => r.2)).map
            (fun r => (r.1, r.2,
              if r.1 ∈ (rxns.filter fun r => r.2).map (fun r => r.1) then
                ((rxns.filter fun r => r.2).map
                  (fun r => r.1)).indexOf r.1 + 1
              else 0)) := by
      unfold assignExchCobra
      rw [List.filter_map]
      rfl
    rw [hflt, List.map_map, List.length_map]
    have hcongr : (rxns.filter (fun r => r.2)).map
        ((fun (r : Nat × Bool × Nat) => r.2.2) ∘
          (fun r => (r.1, r.2,
            if r.1 ∈ (rxns.filter fun r => r.2).map (fun r => r.1) then
              ((rxns.filter fun r => r.2).map
                (fun r => r.1)).indexOf r.1 + 1
            else 0)))
        = (rxns.filter (fun r => r.2)).map
            (fun r => ((rxns.filter fun r => r.2).map
              (fun r => r.1)).indexOf r.1 + 1) := by
      apply List.map_congr_left
      intro b hb
      have hbe : b.1 ∈ (rxns.filter fun r => r.2).map (fun r => r.1) :=
        List.mem_map_of_mem _ hb
      simp only [Function.comp_apply]
      rw [if_pos hbe]
    rw [hcongr]
    have h2 : (rxns.filter (fun r => r.2)).map
        (fun r => ((rxns.filter fun r => r.2).map
          (fun r => r.1)).indexOf r.1 + 1)
        = ((rxns.filter fun r => r.2).map (fun r => r.1)).map
            (fun i => ((rxns.filter fun r => r.2).map
              (fun r => r.1)).indexOf i + 1) := by
      rw [List.map_map]; rfl
    rw [h2, map_indexOf_succ _ hexnd, List.length_map]
  · intro r hr hrf
    unfold assignExchCobra at hr
    rcases List.mem_map.mp hr with ⟨s, hs, hsr⟩
    have hs2 : s.2 = false := by rw [← hsr] at hrf; exact hrf
    have hnm : s.1 ∉ (rxns.filter fun r => r.2).map (fun r => r.1) := by
      intro hmem
      rcases List.mem_map.mp hmem with ⟨t, ht, hts⟩
      have hteq : t = s := List.inj_on_of_nodup_map hrx
        (List.mem_filter.mp ht).1 hs hts
      have htt : t.2 = true := by
        simpa using (List.mem_filter.mp ht).2
      rw [hteq, hs2] at htt
      exact Bool.false_ne_true htt
    rw [← hsr]
    simp [hnm]

/-- Witness for the amended claim C3: reaction IDs `1, 2, 3` with
EXCHANGE_REACTIONS line `3 1`, and a cobra model with rows
`(1, false), (2, true), (3, true)`. -/
theorem exchange_index_assignment_witness :
    ((((assignExch [1, 2, 3] [3, 1]).filter fun r => r.2.1).map
        fun r => r.2.2).Perm
      (List.range' 1
        ((assignExch [1, 2, 3] [3, 1]).filter fun r => r.2.1).length))
    ∧ (((assignExchCobra [(1, false), (2, true), (3, true)]).filter
          fun r => r.2.1).map (fun r => r.2.2)
        = List.range' 1
            ((assignExchCobra [(1, false), (2, true), (3, true)]).filter
              fun r => r.2.1).length) := by
  have h := exchange_index_assignment [1, 2, 3] [3, 1]
    [(1, false), (2, true), (3, true)]
    (by decide) (by decide) (by decide) (by decide)
  exact ⟨h.1, h.2.2.2.1⟩

/-! ## Claim C4 -/

/-- Counterexample to claim C4 as stated: on a grid `[1,1]` with two
exchanged metabolites, the dense local media row `0 0 0 0` (in-grid
coordinate `(0,0)`, both per-metabolite values zero) does create an
entry in `local_media` — the code runs `self.local_media[loc] = {}`
before inspecting the values, so the key `(0,0)` is present, bound to
the empty override map. -/
theorem media_zero_row_cex :
    (mediaSection [1, 1] ["glc_e", "o2_e"] 2 [] [[0, 0, 0, 0]]).1
      = [((0, 0), [])] := by
  decide

/-- Claim C4, amended: a dense local media row whose per-metabolite
values are all zero creates an entry mapping the row's coordinate to
the empty per-metabolite override map; no metabolite-level entry is
stored (a zero value is never stored as an override value). -/
theorem media_zero_row_entry (grid : List Int) (mets : List String)
    (nmedia : Nat) (lm : List ((Int × Int) × List (String × Rat)))
    (row : List Rat)
    (hlen : row.length = nmedia + 2)
    (hx : row.getD 0 0 < (grid.getD 0 0 : Rat))
    (hy : row.getD 1 0 < (grid.getD 1 0 : Rat))
    (hzero : ∀ v ∈ row.drop 2, v = 0) :
    mediaRowStep grid mets nmedia lm row
      = .ok (updateAssoc (pyInt (row.getD 0 0), pyInt (row.getD 1 0))
          [] lm)
    ∧ (∀ (mets₂ : List String) (vals : List Rat),
        ∀ p ∈ nonzeroEntries mets₂ vals, p.2 ≠ 0) := by
  constructor
  · have hne : nonzeroEntries mets (row.drop 2) = [] := by
      unfold nonzeroEntries
      have hfe : (row.drop 2).enum.filter (fun v => v.2 != 0) = [] := by
        rw [List.filter_eq_nil_iff]
        intro v hv
        have hv2 : v.2 ∈ row.drop 2 := List.snd_mem_of_mem_enum hv
        simp [hzero v.2 hv2]
      rw [hfe]; rfl
    unfold mediaRowStep
    rw [if_neg (by omega), if_neg (by push_neg; exact ⟨hx, hy⟩), hne]
  · intro mets₂ vals p hp
    unfold nonzeroEntries at hp
    rcases List.mem_map.mp hp with ⟨v, hv, hvp⟩
    have hvnz := List.of_mem_filter hv
    rw [← hvp]
    simpa using hvnz

/-- Witness for the amended claim C4: grid `[3,3]`, metabolites
`a, b`, all-zero row at `(1,1)`. -/
theorem media_zero_row_entry_witness :
    mediaRowStep [3, 3] ["a", "b"] 2 [] [1, 1, 0, 0]
      = .ok (updateAssoc (pyInt 1, pyInt 1) [] []) := by
  exact (media_zero_row_entry [3, 3] ["a", "b"] 2 [] [1, 1, 0, 0]
    (by decide) (by decide) (by decide) (by decide)).1

/-! ## Claim C5 -/

/-- Truncation toward zero agrees with the floor on non-negatives. -/
theorem pyInt_floor (x : Rat) (h : 0 ≤ x) : pyInt x = ⌊x⌋ := by
  unfold pyInt
  rw [Rat.floor_def]
  exact Int.tdiv_eq_ediv (Rat.num_nonneg.mpr h) (by positivity)

/-- Truncation toward zero of a negative rational is non-positive. -/
theorem pyInt_nonpos (x : Rat) (h : x < 0) : pyInt x ≤ 0 := by
  unfold pyInt
  have h1 : x.num ≤ 0 := le_of_lt (Rat.num_neg.mpr h)
  have h2 : (0 : Int) ≤ x.den := by positivity
  have h3 : x.num = -(-x.num) := by ring
  rw [h3, Int.neg_tdiv]
  simp only [neg_nonpos]
  exact Int.tdiv_nonneg (by omega) h2

/-- A rational below a positive integer bound truncates below it. -/
theorem pyInt_lt (x : Rat) (g : Int) (hg : 0 < g) (h : x < (g : Rat)) :
    pyInt x < g := by
  rcases le_or_lt 0 x with h0 | h0
  · rw [pyInt_floor x h0]
    exact Int.floor_lt.mpr (by exact_mod_cast h)
  · exact lt_of_le_of_lt (pyInt_nonpos x h0) hg

/-- A successful local-media row step only adds an in-grid key. -/
theorem mediaRowStep_ok_keys (g0 g1 : Int) (hg0 : 0 < g0) (hg1 : 0 < g1)
    (mets : List String) (nmedia : Nat)
    (lm lm₂ : List ((Int × Int) × List (String × Rat))) (row : List Rat)
    (h : mediaRowStep [g0, g1] mets nmedia lm row = .ok lm₂)
    (hlm : ∀ p ∈ lm, p.1.1 < g0 ∧ p.1.2 < g1) :
    ∀ p ∈ lm₂, p.1.1 < g0 ∧ p.1.2 < g1 := by
  unfold mediaRowStep at h
  split_ifs at h with h1 h2
  have hlm₂ : updateAssoc (pyInt (row.getD 0 0), pyInt (row.getD 1 0))
      (nonzeroEntries mets (row.drop 2)) lm = lm₂ :=
    Except.ok.inj h
  push_neg at h2
  simp only [List.getD_cons_zero, List.getD_cons_succ] at h2
  intro p hp
  rw [← hlm₂] at hp
  unfold updateAssoc at hp
  rcases List.mem_cons.mp hp with hpk | hpf
  · rw [hpk]
    exact ⟨pyInt_lt _ _ hg0 h2.1, pyInt_lt _ _ hg1 h2.2⟩
  · exact hlm p (List.mem_of_mem_filter hpf)

/-- Keys of the parsed local media (or refresh) map are in-grid. -/
theorem mediaSection_keys (g0 g1 : Int) (hg0 : 0 < g0) (hg1 : 0 < g1)
    (mets : List String) (nmedia : Nat)
    (lm : List ((Int × Int) × List (String × Rat)))
    (rows : List (List Rat))
    (hlm : ∀ p ∈ lm, p.1.1 < g0 ∧ p.1.2 < g1) :
    ∀ p ∈ (mediaSection [g0, g1] mets nmedia lm rows).1,
      p.1.1 < g0 ∧ p.1.2 < g1 := by
  induction rows generalizing lm with
  | nil => simpa [mediaSection] using hlm
  | cons r rs ih =>
    unfold mediaSection
    cases hstep : mediaRowStep [g0, g1] mets nmedia lm r with
    | error e => simpa using hlm
    | ok lm₂ =>
      exact ih lm₂
        (mediaRowStep_ok_keys g0 g1 hg0 hg1 mets nmedia lm lm₂ r hstep hlm)

/-- If every local-media row has the right arity and some row is
out-of-grid, the section loop reports `OutOfGrid`. -/
theorem mediaSection_oog (g0 g1 : Int) (mets : List String)
    (nmedia : Nat) (lm : List ((Int × Int) × List (String × Rat)))
    (rows : List (List Rat))
    (harity : ∀ r ∈ rows, r.length = nmedia + 2)
    (hbad : ∃ r ∈ rows,
      (g0 : Rat) ≤ r.getD 0 0 ∨ (g1 : Rat) ≤ r.getD 1 0) :
    (mediaSection [g0, g1] mets nmedia lm rows).2
      = some PErr.outOfGrid := by
  induction rows generalizing lm with
  | nil => rcases hbad with ⟨r, hr, _⟩; exact absurd hr (by simp)
  | cons r rs ih =>
    unfold mediaSection
    by_cases hb : (g0 : Rat) ≤ r.getD 0 0 ∨ (g1 : Rat) ≤ r.getD 1 0
    · have hstep : mediaRowStep [g0, g1] mets nmedia lm r
          = .error .outOfGrid := by
        unfold mediaRowStep
        rw [if_neg (by have := harity r (by simp); omega)]
        rw [if_pos (by simpa using hb)]
      rw [hstep]
    · have hstep : mediaRowStep [g0, g1] mets nmedia lm r
          = .ok (updateAssoc (pyInt (r.getD 0 0), pyInt (r.getD 1 0))
              (nonzeroEntries mets (r.drop 2)) lm) := by
        unfold mediaRowStep
        rw [if_neg (by have := harity r (by simp); omega)]
        rw [if_neg (by simpa using hb)]
      rw [hstep]
      apply ih
      · intro r₂ hr₂; exact harity r₂ (by simp [hr₂])
      · rcases hbad with ⟨r₂, hr₂, hbad₂⟩
        rcases List.mem_cons.mp hr₂ with hre | hrm
        · exact absurd (hre ▸ hbad₂) hb
        · exact ⟨r₂, hrm, hbad₂⟩

/-- A successful static-media row step only adds an in-grid key. -/
theorem staticRowStep_ok_keys (g0 g1 : Int) (hg0 : 0 < g0) (hg1 : 0 < g1)
    (mets : List String) (nmedia : Nat)
    (ls ls₂ : List ((Int × Int) × List (String × Rat))) (row : List Rat)
    (h : staticRowStep [g0, g1] mets nmedia ls row = .ok ls₂)
    (hls : ∀ p ∈ ls, p.1.1 < g0 ∧ p.1.2 < g1) :
    ∀ p ∈ ls₂, p.1.1 < g0 ∧ p.1.2 < g1 := by
  unfold staticRowStep at h
  split_ifs at h with h1 h2
  have hls₂ : updateAssoc (pyInt (row.getD 0 0), pyInt (row.getD 1 0))
      (staticNonzero mets (row.drop 2)) ls = ls₂ :=
    Except.ok.inj h
  push_neg at h2
  simp only [List.getD_cons_zero, List.getD_cons_succ] at h2
  intro p hp
  rw [← hls₂] at hp
  unfold updateAssoc at hp
  rcases List.mem_cons.mp hp with hpk | hpf
  · rw [hpk]
    exact ⟨pyInt_lt _ _ hg0 h2.1, pyInt_lt _ _ hg1 h2.2⟩
  · exact hls p (List.mem_of_mem_filter hpf)

/-- Keys of the parsed local static map are in-grid. -/
theorem staticSection_keys (g0 g1 : Int) (hg0 : 0 < g0) (hg1 : 0 < g1)
    (mets : List String) (nmedia : Nat)
    (ls : List ((Int × Int) × List (String × Rat)))
    (rows : List (List Rat))
    (hls : ∀ p ∈ ls, p.1.1 < g0 ∧ p.1.2 < g1) :
    ∀ p ∈ (staticSection [g0, g1] mets nmedia ls rows).1,
      p.1.1 < g0 ∧ p.1.2 < g1 := by
  induction rows generalizing ls with
  | nil => simpa [staticSection] using hls
  | cons r rs ih =>
    unfold staticSection
    cases hstep : staticRowStep [g0, g1] mets nmedia ls r with
    | error e => simpa using hls
    | ok ls₂ =>
      exact ih ls₂
        (staticRowStep_ok_keys g0 g1 hg0 hg1 mets nmedia ls ls₂ r hstep hls)

/-- If every static row has the right arity and some row is
out-of-grid, the section loop reports `OutOfGrid`. -/
theorem staticSection_oog (g0 g1 : Int) (mets : List String)
    (nmedia : Nat) (ls : List ((Int × Int) × List (String × Rat)))
    (rows : List (List Rat))
    (harity : ∀ r ∈ rows, r.length = 2 * nmedia + 2)
    (hbad : ∃ r ∈ rows,
      (g0 : Rat) ≤ r.getD 0 0 ∨ (g1 : Rat) ≤ r.getD 1 0) :
    (staticSection [g0, g1] mets nmedia ls rows).2
      = some PErr.outOfGrid := by
  induction rows generalizing ls with
  | nil => rcases hbad with ⟨r, hr, _⟩; exact absurd hr (by simp)
  | cons r rs ih =>
    unfold staticSection
    by_cases hb : (g0 : Rat) ≤ r.getD 0 0 ∨ (g1 : Rat) ≤ r.getD 1 0
    · have hstep : staticRowStep [g0, g1] mets nmedia ls r
          = .error .outOfGrid := by
        unfold staticRowStep
        rw [if_neg (by have := harity r (by simp); omega)]
        rw [if_pos (by simpa using hb)]
      rw [hstep]
    · have hstep : staticRowStep [g0, g1] mets nmedia ls r
          = .ok (updateAssoc (pyInt (r.getD 0 0), pyInt (r.getD 1 0))
              (staticNonzero mets (r.drop 2)) ls) := by
        unfold staticRowStep
        rw [if_neg (by have := harity r (by simp); omega)]
        rw [if_neg (by simpa using hb)]
      rw [hstep]
      apply ih
      · intro r₂ hr₂; exact harity r₂ (by simp [hr₂])
      · rcases hbad with ⟨r₂, hr₂, hbad₂⟩
        rcases List.mem_cons.mp hr₂ with hre | hrm
        · exact absurd (hre ▸ hbad₂) hb
        · exact ⟨r₂, hrm, hbad₂⟩

/-- A successful initial-population row step only appends in-grid
triples. -/
theorem initPopRowStep_ok_keys (g0 g1 : Int) (nModels : Nat)
    (acc acc₂ : List (List (Rat × Rat × Rat))) (row : List Rat)
    (h : initPopRowStep [g0, g1] nModels acc row = .ok acc₂)
    (hacc : ∀ l ∈ acc, ∀ t ∈ l, t.1 < (g0 : Rat) ∧ t.2.1 < (g1 : Rat)) :
    ∀ l ∈ acc₂, ∀ t ∈ l, t.1 < (g0 : Rat) ∧ t.2.1 < (g1 : Rat) := by
  unfold initPopRowStep at h
  split_ifs at h with h1 h2
  have hacc₂ : acc.mapIdx (fun j l =>
      if row.getD (j + 2) 0 != 0 then
        l ++ [(row.getD 0 0, row.getD 1 0, row.getD (j + 2) 0)]
      else l) = acc₂ :=
    Except.ok.inj h
  push_neg at h2
  simp only [List.getD_cons_zero, List.getD_cons_succ] at h2
  intro l hl t ht
  rw [← hacc₂, List.mapIdx_eq_enum_map] at hl
  rcases List.mem_map.mp hl with ⟨⟨j, l₀⟩, hjl, hfl⟩
  have hl₀ : l₀ ∈ acc := List.snd_mem_of_mem_enum hjl
  rw [← hfl] at ht
  simp only [Function.uncurry_apply_pair] at ht
  by_cases hnz : (row.getD (j + 2) 0 != 0) = true
  · rw [if_pos hnz] at ht
    rcases List.mem_append.mp ht with htl | hte
    · exact hacc l₀ hl₀ t htl
    · have hte₂ : t = (row.getD 0 0, row.getD 1 0, row.getD (j + 2) 0) :=
        by simpa using hte
      rw [hte₂]
      exact ⟨h2.1, h2.2⟩
  · rw [if_neg hnz] at ht
    exact hacc l₀ hl₀ t ht

/-- All triples of the parsed initial populations are in-grid. -/
theorem initPopSection_keys (g0 g1 : Int) (nModels : Nat)
    (acc : List (List (Rat × Rat × Rat))) (rows : List (List Rat))
    (hacc : ∀ l ∈ acc, ∀ t ∈ l, t.1 < (g0 : Rat) ∧ t.2.1 < (g1 : Rat)) :
    ∀ l ∈ (initPopSection [g0, g1] nModels acc rows).1,
      ∀ t ∈ l, t.1 < (g0 : Rat) ∧ t.2.1 < (g1 : Rat) := by
  induction rows generalizing acc with
  | nil => simpa [initPopSection] using hacc
  | cons r rs ih =>
    unfold initPopSection
    cases hstep : initPopRowStep [g0, g1] nModels acc r with
    | error e => simpa using hacc
    | ok acc₂ =>
      exact ih acc₂
        (initPopRowStep_ok_keys g0 g1 nModels acc acc₂ r hstep hacc)

/-- If every initial-population row has the right arity and some row
is out-of-grid, the loop reports `OutOfGrid`. -/
theorem initPopSection_oog (g0 g1 : Int) (nModels : Nat)
    (acc : List (List (Rat × Rat × Rat))) (rows : List (List Rat))
    (harity : ∀ r ∈ rows, (r.length : Int) - 2 = nModels)
    (hbad : ∃ r ∈ rows,
      (g0 : Rat) ≤ r.getD 0 0 ∨ (g1 : Rat) ≤ r.getD 1 0) :
    (initPopSection [g0, g1] nModels acc rows).2
      = some PErr.outOfGrid := by
  induction rows generalizing acc with
  | nil => rcases hbad with ⟨r, hr, _⟩; exact absurd hr (by simp)
  | cons r rs ih =>
    unfold initPopSection
    by_cases hb : (g0 : Rat) ≤ r.getD 0 0 ∨ (g1 : Rat) ≤ r.getD 1 0
    · have hstep : initPopRowStep [g0, g1] nModels acc r
          = .error .outOfGrid := by
        unfold initPopRowStep
        rw [if_neg (by rw [harity r (by simp)]; simp)]
        rw [if_pos (by simpa using hb)]
      rw [hstep]
    · have hstep : initPopRowStep [g0, g1] nModels acc r
          = .ok (acc.mapIdx fun j l =>
              if r.getD (j + 2) 0 != 0 then
                l ++ [(r.getD 0 0, r.getD 1 0, r.getD (j + 2) 0)]
              else l) := by
        unfold initPopRowStep
        rw [if_neg (by rw [harity r (by simp)]; simp)]
        rw [if_neg (by simpa using hb)]
      rw [hstep]
      apply ih
      · intro r₂ hr₂; exact harity r₂ (by simp [hr₂])
      · rcases hbad with ⟨r₂, hr₂, hbad₂⟩
        rcases List.mem_cons.mp hr₂ with hre | hrm
        · exact absurd (hre ▸ hbad₂) hb
        · exact ⟨r₂, hrm, hbad₂⟩

/-- Claim C5: in `layout.read_comets_layout`, for dense local media
(identically, refresh), static and initial-population sections whose
rows all have the declared arity, an out-of-grid row (`x ≥ grid[0]` or
`y ≥ grid[1]`) makes the section loop raise `OutOfGrid` (the printed
diagnostic of the enclosing handler), and no out-of-grid coordinate
ever appears in the parsed `local_media`/`local_refresh`/
`local_static` maps or among the initial-population triples. -/
theorem grid_bound_enforcement (g0 g1 : Int) (hg0 : 0 < g0)
    (hg1 : 0 < g1) (mets : List String) (nmedia nModels : Nat)
    (mrows srows irows : List (List Rat))
    (hma : ∀ r ∈ mrows, r.length = nmedia + 2)
    (hsa : ∀ r ∈ srows, r.length = 2 * nmedia + 2)
    (hia : ∀ r ∈ irows, (r.length : Int) - 2 = nModels)
    (hmb : ∃ r ∈ mrows,
      (g0 : Rat) ≤ r.getD 0 0 ∨ (g1 : Rat) ≤ r.getD 1 0)
    (hsb : ∃ r ∈ srows,
      (g0 : Rat) ≤ r.getD 0 0 ∨ (g1 : Rat) ≤ r.getD 1 0)
    (hib : ∃ r ∈ irows,
      (g0 : Rat) ≤ r.getD 0 0 ∨ (g1 : Rat) ≤ r.getD 1 0) :
    ((mediaSection [g0, g1] mets nmedia [] mrows).2
        = some PErr.outOfGrid
      ∧ ∀ p ∈ (mediaSection [g0, g1] mets nmedia [] mrows).1,
          p.1.1 < g0 ∧ p.1.2 < g1)
    ∧ ((staticSection [g0, g1] mets nmedia [] srows).2
        = some PErr.outOfGrid
      ∧ ∀ p ∈ (staticSection [g0, g1] mets nmedia [] srows).1,
          p.1.1 < g0 ∧ p.1.2 < g1)
    ∧ ((initPopSection [g0, g1] nModels
          (List.replicate nModels []) irows).2 = some PErr.outOfGrid
      ∧ ∀ l ∈ (initPopSection [g0, g1] nModels
            (List.replicate nModels []) irows).1,
          ∀ t ∈ l, t.1 < (g0 : Rat) ∧ t.2.1 < (g1 : Rat)) := by
  refine ⟨⟨?_, ?_⟩, ⟨?_, ?_⟩, ⟨?_, ?_⟩⟩
  · exact mediaSection_oog g0 g1 mets nmedia [] mrows hma hmb
  · exact mediaSection_keys g0 g1 hg0 hg1 mets nmedia [] mrows
      (by simp)
  · exact staticSection_oog g0 g1 mets nmedia [] srows hsa hsb
  · exact staticSection_keys g0 g1 hg0 hg1 mets nmedia [] srows
      (by simp)
  · exact initPopSection_oog g0 g1 nModels
      (List.replicate nModels []) irows hia hib
  · apply initPopSection_keys g0 g1 nModels
      (List.replicate nModels []) irows
    intro l hl t ht
    have hle : l = [] := List.eq_of_mem_replicate hl
    rw [hle] at ht
    exact absurd ht (by simp)

/-- Witness for claim C5: grid `[2,2]`, one metabolite, one model;
each section given one in-grid and one out-of-grid row. -/
theorem grid_bound_enforcement_witness :
    (mediaSection [2, 2] ["a"] 1 [] [[0, 0, 3], [5, 0, 4]]).2
      = some PErr.outOfGrid
    ∧ (staticSection [2, 2] ["a"] 1 [] [[0, 1, 1, 6], [0, 7, 1, 6]]).2
      = some PErr.outOfGrid
    ∧ (initPopSection [2, 2] 1 (List.replicate 1 [])
        [[1, 1, 2], [3, 1, 2]]).2 = some PErr.outOfGrid := by
  have h := grid_bound_enforcement 2 2 (by decide) (by decide) ["a"] 1 1
    [[0, 0, 3], [5, 0, 4]] [[0, 1, 1, 6], [0, 7, 1, 6]]
    [[1, 1, 2], [3, 1, 2]]
    (by decide) (by decide) (by decide) (by decide) (by decide)
    (by decide)
  exact ⟨h.1.1, h.2.1.1, h.2.2.1⟩

/-! ## Claim C6 -/

/-- Counterexample to claim C6 as stated: a `grid_size` line declaring
the single dimension `7` is not fatal to `layout.read_comets_layout` —
the raised `CorruptLine` is caught by the surrounding handler, which
prints the diagnostic, and parsing continues with the partial grid
`[7]` (comets.py lines 929-935). -/
theorem grid_short_fatal_cex :
    (gridStep [7]).1 = Except.ok [7]
    ∧ (gridStep [7]).2 = some PErr.corruptLine :=
  ⟨rfl, rfl⟩

/-- Claim C6, amended: a malformed OBJECTIVE token aborts
`model.read_comets_model` with an uncaught `ValueError`; but a
`grid_size` line with fewer than two dimensions is not fatal to
`layout.read_comets_layout` — the `CorruptLine` is caught, only a
diagnostic is emitted, and parsing continues with the partial grid. -/
theorem required_section_failures (tokens : List Int) (s : String)
    (hs : pyParseInt s = none) :
    (gridStep tokens).1 = Except.ok tokens
    ∧ ((gridStep tokens).2 = some PErr.corruptLine ↔ tokens.length < 2)
    ∧ parseObjective s = Except.error PErr.valueError := by
  refine ⟨?_, ?_, ?_⟩
  · unfold gridStep
    split_ifs <;> rfl
  · unfold gridStep
    split_ifs with hlt
    · simpa using hlt
    · simpa using hlt
  · unfold parseObjective
    rw [hs]

/-- Witness for the amended claim C6: a one-dimensional grid line and
the objective token `abc`. -/
theorem required_section_failures_witness :
    (gridStep [7]).2 = some PErr.corruptLine
    ∧ parseObjective "abc" = Except.error PErr.valueError := by
  have h := required_section_failures [7] "abc" (by decide)
  exact ⟨h.2.1.mpr (by decide), h.2.2⟩

/-! ## Claim C9 -/

/-- Claim C9: a parsed substrate_layout region map of rectangular
shape `a × b` different from the declared grid `[g0, g1]` makes
`layout.read_comets_layout` report `CorruptLine`, leave the region
flag `false` and keep `region_map` at its previous (unset) value. -/
theorem region_shape_mismatch (grid : List Int) (g0 g1 : Int)
    (rows : List (List Int)) (map0 : Option (List (List Int)))
    (a b : Nat) (hg : grid = [g0, g1]) (hlen : rows.length = a)
    (h0 : 0 < a) (hrect : ∀ r ∈ rows, r.length = b)
    (hmm : (a : Int) ≠ g0 ∨ (b : Int) ≠ g1) :
    substrateLayoutSection grid map0 rows
      = (false, map0, some PErr.corruptLine) := by
  subst hg
  unfold substrateLayoutSection
  rw [if_neg]
  intro hc
  rcases hc with ⟨hc1, hc2⟩
  simp only [List.getD_cons_zero, List.getD_cons_succ] at hc1 hc2
  rcases hmm with hma | hmb
  · rw [hlen] at hc1
    exact hma hc1
  · have hne : rows ≠ [] := by
      intro he
      rw [he] at hlen
      simp at hlen
      omega
    rcases List.exists_mem_of_ne_nil rows hne with ⟨r₀, hr₀⟩
    have hb := hrect r₀ hr₀
    have hcb := hc2 r₀ hr₀
    rw [hb] at hcb
    exact hmb hcb

/-- Witness for claim C9: a `2 × 2` region map against grid `[3, 3]`
(the spec's own scenario). -/
theorem region_shape_mismatch_witness :
    substrateLayoutSection [3, 3] none [[1, 1], [1, 2]]
      = (false, none, some PErr.corruptLine) :=
  region_shape_mismatch [3, 3] 3 3 [[1, 1], [1, 2]] none 2 2
    rfl rfl (by decide) (by decide) (by decide)

/-! ## Claim C10 -/

/-- Claim C10: `layout.set_global_periodic_media` raises `ValueError`
when the metabolite is not in the media table, raises `ValueError`
when the waveform is not one of step, sin, cos, half_sin, half_cos,
and otherwise appends exactly one forcing term and sets the periodic
flag.  Both raises happen before any mutation, so in the error cases
no updated layout is produced — the caller's `periodic_media` list and
flag are untouched. -/
theorem set_global_periodic_media_spec (l : LayoutPM)
    (met wf : String) (a p ph off : Rat) :
    (met ∉ l.media →
      set_global_periodic_media l met wf a p ph off
        = .error "the metabolite is not present in the media")
    ∧ (wf ∉ ["step", "sin", "cos", "half_sin", "half_cos"] →
        met ∈ l.media →
        set_global_periodic_media l met wf a p ph off
          = .error (wf ++ ": function unknown"))
    ∧ (met ∈ l.media →
        wf ∈ ["step", "sin", "cos", "half_sin", "half_cos"] →
        set_global_periodic_media l met wf a p ph off
          = .ok { l with
              periodic_media := l.periodic_media ++
                [(l.media.indexOf met, wf, a, p, ph, off)],
              periodicFlag := true }) := by
  refine ⟨?_, ?_, ?_⟩
  · intro hm
    unfold set_global_periodic_media
    rw [if_pos hm]
  · intro hw hm
    unfold set_global_periodic_media
    rw [if_neg (fun hn => hn hm), if_pos hw]
  · intro hm hw
    unfold set_global_periodic_media
    rw [if_neg (fun hn => hn hm), if_neg (fun hn => hn hw)]

/-- Witness for claim C10: a layout with media `glc_e, o2_e`: the
unknown metabolite `x_e` errors, the unknown waveform `tan` errors,
and a valid call appends one `sin` term for `o2_e` and sets the
flag. -/
theorem set_global_periodic_media_spec_witness :
    set_global_periodic_media ⟨["glc_e", "o2_e"], [], false⟩ "x_e" "sin"
        1 2 0 0
      = .error "the metabolite is not present in the media"
    ∧ set_global_periodic_media ⟨["glc_e", "o2_e"], [], false⟩ "o2_e"
        "tan" 1 2 0 0
      = .error ("tan" ++ ": function unknown")
    ∧ set_global_periodic_media ⟨["glc_e", "o2_e"], [], false⟩ "o2_e"
        "sin" 1 2 0 0
      = .ok ⟨["glc_e", "o2_e"], [(1, "sin", 1, 2, 0, 0)], true⟩ := by
  refine ⟨?_, ?_, ?_⟩
  · exact (set_global_periodic_media_spec ⟨["glc_e", "o2_e"], [], false⟩
      "x_e" "sin" 1 2 0 0).1 (by decide)
  · exact (set_global_periodic_media_spec ⟨["glc_e", "o2_e"], [], false⟩
      "o2_e" "tan" 1 2 0 0).2.1 (by decide) (by decide)
  · exact (set_global_periodic_media_spec ⟨["glc_e", "o2_e"], [], false⟩
      "o2_e" "sin" 1 2 0 0).2.2 (by decide) (by decide)

/-! ## Claim C8 -/

instance : IsTotal String (fun a b => a.data ≤ b.data) :=
  ⟨fun a b => le_total a.data b.data⟩

instance : IsTrans String (fun a b => a.data ≤ b.data) :=
  ⟨fun _ _ _ => le_trans⟩

/-- The first index is injective on members of a list. -/
theorem indexOf_injOn_mem (l : List String) (x y : String)
    (hx : x ∈ l) (hy : y ∈ l) (h : l.indexOf x = l.indexOf y) :
    x = y := by
  have hgx := List.indexOf_get (List.indexOf_lt_length.mpr hx)
  have hgy := List.indexOf_get (List.indexOf_lt_length.mpr hy)
  rw [← hgx, ← hgy]
  congr 1
  exact Fin.ext h

/-- Folding position-writes leaves unwritten positions unchanged. -/
theorem foldl_set_get_not_written (mets : List String)
    (ov : List (String × Rat)) (acc : List Rat) (i : Nat)
    (hni : i ∉ ov.map (fun q => mets.indexOf q.1)) :
    (ov.foldl (fun a q => a.set (mets.indexOf q.1) q.2) acc).get? i
      = acc.get? i := by
  induction ov generalizing acc with
  | nil => rfl
  | cons q tl ih =>
    simp only [List.map_cons, List.mem_cons] at hni
    push_neg at hni
    rw [List.foldl_cons]
    rw [ih (acc.set (mets.indexOf q.1) q.2) hni.2]
    exact List.get?_set_ne _ _ (fun hc => hni.1 hc.symm)

/-- Folding position-writes preserves the vector length. -/
theorem foldl_set_length (mets : List String) (ov : List (String × Rat))
    (acc : List Rat) :
    (ov.foldl (fun a q => a.set (mets.indexOf q.1) q.2) acc).length
      = acc.length := by
  induction ov generalizing acc with
  | nil => rfl
  | cons q tl ih =>
    rw [List.foldl_cons, ih]
    exact List.length_set acc _ _

/-- Folding position-writes records each entry at its key's index,
provided the keys are distinct members of the index list. -/
theorem foldl_set_get_written (mets : List String)
    (ov : List (String × Rat)) (acc : List Rat)
    (hlen : acc.length = mets.length)
    (hnd : (ov.map Prod.fst).Nodup)
    (hsub : ∀ q ∈ ov, q.1 ∈ mets) (p : String × Rat) (hp : p ∈ ov) :
    (ov.foldl (fun a q => a.set (mets.indexOf q.1) q.2) acc).get?
      (mets.indexOf p.1) = some p.2 := by
  induction ov generalizing acc with
  | nil => exact absurd hp (by simp)
  | cons q tl ih =>
    simp only [List.map_cons, List.nodup_cons] at hnd
    rw [List.foldl_cons]
    rcases List.mem_cons.mp hp with hpq | hptl
    · have hni : mets.indexOf p.1
          ∉ tl.map (fun r => mets.indexOf r.1) := by
        intro hmem
        rcases List.mem_map.mp hmem with ⟨r, hr, hri⟩
        have hr1 : r.1 ∈ mets := hsub r (by simp [hr])
        have hp1 : p.1 ∈ mets := hsub p hp
        have heq : r.1 = p.1 := indexOf_injOn_mem mets r.1 p.1 hr1 hp1 hri
        rw [hpq] at heq
        exact hnd.1 (heq ▸ List.mem_map_of_mem Prod.fst hr)
      rw [foldl_set_get_not_written mets tl _ _ hni, hpq]
      apply List.get?_set_eq_of_lt
      rw [hlen]
      exact List.indexOf_lt_length.mpr (hsub q (by simp))
    · apply ih
      · rw [List.length_set, hlen]
      · exact hnd.2
      · intro r hr; exact hsub r (by simp [hr])
      · exact hptl

/-- Claim C8: `layout.build_exchanged_mets` produces the
duplicate-free, code-point-sorted union of the referenced models'
exchange metabolite names, and `layout.__write_local_media_chunk`
positions each override value at its metabolite's index in that same
list when expanding a dense row. -/
theorem exchanged_mets_ordering (models : List ModelE)
    (ov : List (String × Rat)) (p : String × Rat)
    (hnd : (ov.map Prod.fst).Nodup)
    (hsub : ∀ q ∈ ov, q.1 ∈ build_exchanged_mets models)
    (hp : p ∈ ov) :
    (build_exchanged_mets models).Sorted (fun x y => x.data ≤ y.data)
    ∧ (build_exchanged_mets models).Nodup
    ∧ (∀ s, s ∈ build_exchanged_mets models ↔
        ∃ m ∈ models, s ∈ get_exchange_metabolites m)
    ∧ (write_local_media_row_amounts (build_exchanged_mets models)
        ov).length = (build_exchanged_mets models).length
    ∧ (write_local_media_row_amounts (build_exchanged_mets models)
        ov).get? (get_met_number (build_exchanged_mets models) p.1)
        = some p.2 := by
  refine ⟨?_, ?_, ?_, ?_, ?_⟩
  · exact List.sorted_insertionSort _ _
  · unfold build_exchanged_mets
    exact (List.perm_insertionSort _ _).nodup_iff.mpr
      (List.nodup_dedup _)
  · intro s
    unfold build_exchanged_mets
    rw [(List.perm_insertionSort _ _).mem_iff, List.mem_dedup,
      List.mem_flatMap]
  · unfold write_local_media_row_amounts get_met_number
    rw [foldl_set_length, List.length_replicate]
  · unfold write_local_media_row_amounts get_met_number
    apply foldl_set_get_written (build_exchanged_mets models) ov _
      (List.length_replicate _ _) hnd hsub p hp

/-- Witness for claim C8: two one-reaction models exchanging `o2_e`
and `glc_e` respectively, and an override setting `glc_e` to 5. -/
theorem exchanged_mets_ordering_witness :
    build_exchanged_mets
        [{ id := "m1",
           reactions := [⟨"EX_o2", 1, 0, 1000, true, 1, none, none, none⟩],
           metabolites := ["o2_e"], smat := [(1, 1, -1)], objective := 1,
           obj_style := "MAXIMIZE_OBJECTIVE_FLUX", optimizer := "GUROBI",
           default_bounds := (0, 1000), default_vmax := 10,
           default_km := 1, default_hill := 1, vmax_flag := false,
           km_flag := false, hill_flag := false, light_flag := false,
           light := [], signals := [], convection_flag := false,
           convection_parameters := ⟨1, 1, 1, 1⟩,
           nonlinear_diffusion_flag := false,
           nonlinear_diffusion_parameters := ⟨1, 1, 1, 10, 9/10⟩,
           noise_variance_flag := false, noise_variance := 0,
           neutral_drift_flag := false, neutralDriftSigma := 0 },
         { id := "m2",
           reactions := [⟨"EX_glc", 1, 0, 1000, true, 1, none, none, none⟩],
           metabolites := ["glc_e"], smat := [(1, 1, -1)], objective := 1,
           obj_style := "MAXIMIZE_OBJECTIVE_FLUX", optimizer := "GUROBI",
           default_bounds := (0, 1000), default_vmax := 10,
           default_km := 1, default_hill := 1, vmax_flag := false,
           km_flag := false, hill_flag := false, light_flag := false,
           light := [], signals := [], convection_flag := false,
           convection_parameters := ⟨1, 1, 1, 1⟩,
           nonlinear_diffusion_flag := false,
           nonlinear_diffusion_parameters := ⟨1, 1, 1, 10, 9/10⟩,
           noise_variance_flag := false, noise_variance := 0,
           neutral_drift_flag := false, neutralDriftSigma := 0 }]
      = ["glc_e", "o2_e"]
    ∧ (write_local_media_row_amounts ["glc_e", "o2_e"]
        [("glc_e", 5)]).get? (get_met_number ["glc_e", "o2_e"] "glc_e")
      = some 5 := by
  constructor
  · decide
  · have h := exchanged_mets_ordering
      [{ id := "m1",
         reactions := [⟨"EX_o2", 1, 0, 1000, true, 1, none, none, none⟩],
         metabolites := ["o2_e"], smat := [(1, 1, -1)], objective := 1,
         obj_style := "MAXIMIZE_OBJECTIVE_FLUX", optimizer := "GUROBI",
         default_bounds := (0, 1000), default_vmax := 10,
         default_km := 1, default_hill := 1, vmax_flag := false,
         km_flag := false, hill_flag := false, light_flag := false,
         light := [], signals := [], convection_flag := false,
         convection_parameters := ⟨1, 1, 1, 1⟩,
         nonlinear_diffusion_flag := false,
         nonlinear_diffusion_parameters := ⟨1, 1, 1, 10, 9/10⟩,
         noise_variance_flag := false, noise_variance := 0,
         neutral_drift_flag := false, neutralDriftSigma := 0 },
       { id := "m2",
         reactions := [⟨"EX_glc", 1, 0, 1000, true, 1, none, none, none⟩],
         metabolites := ["glc_e"], smat := [(1, 1, -1)], objective := 1,
         obj_style := "MAXIMIZE_OBJECTIVE_FLUX", optimizer := "GUROBI",
         default_bounds := (0, 1000), default_vmax := 10,
         default_km := 1, default_hill := 1, vmax_flag := false,
         km_flag := false, hill_flag := false, light_flag := false,
         light := [], signals := [], convection_flag := false,
         convection_parameters := ⟨1, 1, 1, 1⟩,
         nonlinear_diffusion_flag := false,
         nonlinear_diffusion_parameters := ⟨1, 1, 1, 10, 9/10⟩,
         noise_variance_flag := false, noise_variance := 0,
         neutral_drift_flag := false, neutralDriftSigma := 0 }]
      [("glc_e", 5)] ("glc_e", 5) (by decide) (by decide) (by decide)
    have hb : build_exchanged_mets
        [{ id := "m1",
           reactions := [⟨"EX_o2", 1, 0, 1000, true, 1, none, none, none⟩],
           metabolites := ["o2_e"], smat := [(1, 1, -1)], objective := 1,
           obj_style := "MAXIMIZE_OBJECTIVE_FLUX", optimizer := "GUROBI",
           default_bounds := (0, 1000), default_vmax := 10,
           default_km := 1, default_hill := 1, vmax_flag := false,
           km_flag := false, hill_flag := false, light_flag := false,
           light := [], signals := [], convection_flag := false,
           convection_parameters := ⟨1, 1, 1, 1⟩,
           nonlinear_diffusion_flag := false,
           nonlinear_diffusion_parameters := ⟨1, 1, 1, 10, 9/10⟩,
           noise_variance_flag := false, noise_variance := 0,
           neutral_drift_flag := false, neutralDriftSigma := 0 },
         { id := "m2",
           reactions := [⟨"EX_glc", 1, 0, 1000, true, 1, none, none, none⟩],
           metabolites := ["glc_e"], smat := [(1, 1, -1)], objective := 1,
           obj_style := "MAXIMIZE_OBJECTIVE_FLUX", optimizer := "GUROBI",
           default_bounds := (0, 1000), default_vmax := 10,
           default_km := 1, default_hill := 1, vmax_flag := false,
           km_flag := false, hill_flag := false, light_flag := false,
           light := [], signals := [], convection_flag := false,
           convection_parameters := ⟨1, 1, 1, 1⟩,
           nonlinear_diffusion_flag := false,
           nonlinear_diffusion_parameters := ⟨1, 1, 1, 10, 9/10⟩,
           noise_variance_flag := false, noise_variance := 0,
           neutral_drift_flag := false, neutralDriftSigma := 0 }]
        = ["glc_e", "o2_e"] := by decide
    have hpos := h.2.2.2.2
    rw [hb] at hpos
    exact hpos

/-! ## Claim C7 -/

/-- A line whose keyword-plus-space is a character-level prefix is a
header line for that keyword. -/
theorem headerFor_of_prefix (kw line : String)
    (h : (kw.data ++ [' ']) <+: line.data) : HeaderFor kw line := by
  rcases h with ⟨t, ht⟩
  right
  refine ⟨String.mk t, ?_⟩
  apply String.ext
  simp only [String.data_append]
  rw [← ht]

/-- A prefix of a list is a prefix of any right-extension of it. -/
theorem prefix_extend {p q : List Char} (X : List Char) (h : p <+: q) :
    p <+: q ++ X :=
  h.trans (List.prefix_append q X)

/-- The head character survives a right string append. -/
theorem head_append (x y : String) (c : Char)
    (h : x.data.head? = some c) : (x ++ y).data.head? = some c := by
  rw [String.data_append]
  cases hx : x.data with
  | nil => rw [hx] at h; exact absurd h (by simp)
  | cons a t =>
    rw [hx] at h
    simp only [List.head?_cons, Option.some.injEq] at h
    simp [h]

/-- A string whose first character is a space is not the section
marker. -/
theorem ne_marker_of_head (s : String) (h : s.data.head? = some ' ') :
    s ≠ "//" := by
  intro he
  rw [he] at h
  exact absurd h (by decide)

/-- A string containing a space is not the section marker. -/
theorem ne_marker_of_space_mem (s : String) (h : ' ' ∈ s.data) :
    s ≠ "//" := by
  intro he
  rw [he] at h
  exact absurd h (by decide)

/-- Concatenating two section-structured line blocks concatenates
their keyword sequences. -/
theorem so_append {xs ks ys ls : List String}
    (h1 : SectionsInOrder xs ks) (h2 : SectionsInOrder ys ls) :
    SectionsInOrder (xs ++ ys) (ks ++ ls) := by
  induction h1 with
  | nil => simpa using h2
  | sec kw h body rest kws hh hb _ ih =>
    have he : (h :: (body ++ "//" :: rest)) ++ ys
        = h :: (body ++ "//" :: (rest ++ ys)) := by simp
    rw [he]
    exact SectionsInOrder.sec kw h body (rest ++ ys) (kws ++ ls) hh hb ih

/-- The section structure distributes over a conditional. -/
theorem so_ite (c : Prop) [Decidable c] (ch1 ch2 k1 k2 : List String)
    (h1 : SectionsInOrder ch1 k1) (h2 : SectionsInOrder ch2 k2) :
    SectionsInOrder (if c then ch1 else ch2) (if c then k1 else k2) := by
  split_ifs
  · exact h1
  · exact h2

/-- A rendered SMATRIX row is not the marker. -/
theorem smatLine_ne (s : Nat × Nat × Rat) : smatLine s ≠ "//" := by
  apply ne_marker_of_head
  unfold smatLine
  repeat apply head_append
  decide

/-- A rendered BOUNDS row is not the marker. -/
theorem boundLine_ne (b : Nat × Rat × Rat) : boundLine b ≠ "//" := by
  apply ne_marker_of_head
  unfold boundLine
  repeat apply head_append
  decide

/-- A rendered LIGHT row is not the marker. -/
theorem lightLine_ne (m : ModelE) (l : String × Rat × Rat) :
    lightLine m l ≠ "//" := by
  apply ne_marker_of_head
  unfold lightLine
  repeat apply head_append
  decide

/-- A rendered MET_REACTION_SIGNAL row is not the marker. -/
theorem renderSignal_ne (s : SignalRow) : renderSignal s ≠ "//" := by
  apply ne_marker_of_space_mem
  unfold renderSignal
  simp [String.data_append]

/-- The SMATRIX block is one SMATRIX section. -/
theorem smatChunk_so (m : ModelE) :
    SectionsInOrder (smatChunk m) ["SMATRIX"] := by
  refine SectionsInOrder.sec _ _ (m.smat.map smatLine) [] [] ?_ ?_
    SectionsInOrder.nil
  · apply headerFor_of_prefix
    simp only [String.data_append, List.append_assoc]
    exact prefix_extend _ (by decide)
  · intro l hl
    rcases List.mem_map.mp hl with ⟨s, _, hsl⟩
    rw [← hsl]
    exact smatLine_ne s

/-- The BOUNDS block is one BOUNDS section. -/
theorem boundsChunk_so (m : ModelE) :
    SectionsInOrder (boundsChunk m) ["BOUNDS"] := by
  refine SectionsInOrder.sec _ _
    ((writeBoundsBody m.reactions m.default_bounds).map boundLine) [] []
    ?_ ?_ SectionsInOrder.nil
  · apply headerFor_of_prefix
    simp only [String.data_append, List.append_assoc]
    exact prefix_extend _ (by decide)
  · intro l hl
    rcases List.mem_map.mp hl with ⟨b, _, hbl⟩
    rw [← hbl]
    exact boundLine_ne b

/-- The OBJECTIVE block is one OBJECTIVE section. -/
theorem objectiveChunk_so (m : ModelE) :
    SectionsInOrder (objectiveChunk m) ["OBJECTIVE"] := by
  refine SectionsInOrder.sec _ _ ["    " ++ toString m.objective] [] []
    (Or.inl rfl) ?_ SectionsInOrder.nil
  intro l hl
  have hle : l = "    " ++ toString m.objective := by simpa using hl
  rw [hle]
  apply ne_marker_of_head
  repeat apply head_append
  decide

/-- The METABOLITE_NAMES block is one METABOLITE_NAMES section. -/
theorem metNamesChunk_so (m : ModelE) :
    SectionsInOrder (metNamesChunk m) ["METABOLITE_NAMES"] := by
  refine SectionsInOrder.sec _ _
    (m.metabolites.map (fun n => "    " ++ n)) [] []
    (Or.inl rfl) ?_ SectionsInOrder.nil
  intro l hl
  rcases List.mem_map.mp hl with ⟨n, _, hnl⟩
  rw [← hnl]
  apply ne_marker_of_head
  repeat apply head_append
  decide

/-- The REACTION_NAMES block is one REACTION_NAMES section. -/
theorem rxnNamesChunk_so (m : ModelE) :
    SectionsInOrder (rxnNamesChunk m) ["REACTION_NAMES"] := by
  refine SectionsInOrder.sec _ _
    (m.reactions.map (fun r => "    " ++ r.name)) [] []
    (Or.inl rfl) ?_ SectionsInOrder.nil
  intro l hl
  rcases List.mem_map.mp hl with ⟨r, _, hrl⟩
  rw [← hrl]
  apply ne_marker_of_head
  repeat apply head_append
  decide

/-- The EXCHANGE_REACTIONS block is one EXCHANGE_REACTIONS section. -/
theorem exchChunk_so (m : ModelE) :
    SectionsInOrder (exchChunk m) ["EXCHANGE_REACTIONS"] := by
  refine SectionsInOrder.sec _ _
    [" " ++ String.intercalate " "
      ((m.reactions.filter fun r => r.exch).map fun r => toString r.id)]
    [] [] (Or.inl rfl) ?_ SectionsInOrder.nil
  intro l hl
  have hle : l = " " ++ String.intercalate " "
      ((m.reactions.filter fun r => r.exch).map fun r => toString r.id) :=
    by simpa using hl
  rw [hle]
  apply ne_marker_of_head
  repeat apply head_append
  decide

/-- The VMAX_VALUES block is one VMAX_VALUES section when present. -/
theorem vmaxChunk_so (m : ModelE) :
    SectionsInOrder (vmaxChunk m)
      (if m.vmax_flag then ["VMAX_VALUES"] else []) := by
  unfold vmaxChunk
  apply so_ite _ _ _ _ _ _ SectionsInOrder.nil
  refine SectionsInOrder.sec _ _ (vmaxRows m) [] [] ?_ ?_
    SectionsInOrder.nil
  · apply headerFor_of_prefix
    simp only [String.data_append, List.append_assoc]
    exact prefix_extend _ (by decide)
  · intro l hl
    rcases List.mem_filterMap.mp hl with ⟨r, _, hmap⟩
    rcases Option.map_eq_some'.mp hmap with ⟨v, _, hvl⟩
    rw [← hvl]
    apply ne_marker_of_head
    repeat apply head_append
    decide

/-- The KM_VALUES block is one KM_VALUES section when present. -/
theorem kmChunk_so (m : ModelE) :
    SectionsInOrder (kmChunk m)
      (if m.km_flag then ["KM_VALUES"] else []) := by
  unfold kmChunk
  apply so_ite _ _ _ _ _ _ SectionsInOrder.nil
  refine SectionsInOrder.sec _ _ (kmRows m) [] [] ?_ ?_
    SectionsInOrder.nil
  · apply headerFor_of_prefix
    simp only [String.data_append, List.append_assoc]
    exact prefix_extend _ (by decide)
  · intro l hl
    rcases List.mem_filterMap.mp hl with ⟨r, _, hmap⟩
    rcases Option.map_eq_some'.mp hmap with ⟨v, _, hvl⟩
    rw [← hvl]
    apply ne_marker_of_head
    repeat apply head_append
    decide

/-- The HILL_VALUES block is one HILL_VALUES section when present. -/
theorem hillChunk_so (m : ModelE) :
    SectionsInOrder (hillChunk m)
      (if m.hill_flag then ["HILL_VALUES"] else []) := by
  unfold hillChunk
  apply so_ite _ _ _ _ _ _ SectionsInOrder.nil
  refine SectionsInOrder.sec _ _ (hillRows m) [] [] ?_ ?_
    SectionsInOrder.nil
  · apply headerFor_of_prefix
    simp only [String.data_append, List.append_assoc]
    exact prefix_extend _ (by decide)
  · intro l hl
    rcases List.mem_filterMap.mp hl with ⟨r, _, hmap⟩
    rcases Option.map_eq_some'.mp hmap with ⟨v, _, hvl⟩
    rw [← hvl]
    apply ne_marker_of_head
    repeat apply head_append
    decide

/-- The LIGHT block is one LIGHT section when present. -/
theorem lightChunk_so (m : ModelE) :
    SectionsInOrder (lightChunk m)
      (if m.light_flag then ["LIGHT"] else []) := by
  unfold lightChunk
  apply so_ite _ _ _ _ _ _ SectionsInOrder.nil
  refine SectionsInOrder.sec _ _ (m.light.map (lightLine m)) [] []
    (Or.inl rfl) ?_ SectionsInOrder.nil
  intro l hl
  rcases List.mem_map.mp hl with ⟨x, _, hxl⟩
  rw [← hxl]
  exact lightLine_ne m x

/-- The MET_REACTION_SIGNAL block is one section when present. -/
theorem signalsChunk_so (m : ModelE) :
    SectionsInOrder (signalsChunk m)
      (if m.signals.isEmpty then [] else ["MET_REACTION_SIGNAL"]) := by
  unfold signalsChunk
  apply so_ite _ _ _ _ _ SectionsInOrder.nil
  refine SectionsInOrder.sec _ _ (m.signals.map renderSignal) [] []
    (Or.inl rfl) ?_ SectionsInOrder.nil
  intro l hl
  rcases List.mem_map.mp hl with ⟨s, _, hsl⟩
  rw [← hsl]
  exact renderSignal_ne s

/-- The convection block is four key sections when present. -/
theorem convectionChunk_so (m : ModelE) :
    SectionsInOrder (convectionChunk m)
      (if m.convection_flag then
        ["packedDensity", "elasticModulus", "frictionConstant",
         "convDiffConstant"] else []) := by
  unfold convectionChunk
  apply so_ite _ _ _ _ _ _ SectionsInOrder.nil
  refine SectionsInOrder.sec _ _ [] _ _ ?_ (by simp) ?_
  · apply headerFor_of_prefix
    simp only [String.data_append, List.append_assoc]
    exact prefix_extend _ (by decide)
  refine SectionsInOrder.sec _ _ [] _ _ ?_ (by simp) ?_
  · apply headerFor_of_prefix
    simp only [String.data_append, List.append_assoc]
    exact prefix_extend _ (by decide)
  refine SectionsInOrder.sec _ _ [] _ _ ?_ (by simp) ?_
  · apply headerFor_of_prefix
    simp only [String.data_append, List.append_assoc]
    exact prefix_extend _ (by decide)
  refine SectionsInOrder.sec _ _ [] _ _ ?_ (by simp) SectionsInOrder.nil
  apply headerFor_of_prefix
  simp only [String.data_append, List.append_assoc]
  exact prefix_extend _ (by decide)

/-- The nonlinear-diffusion block is five key sections when present. -/
theorem nonlinChunk_so (m : ModelE) :
    SectionsInOrder (nonlinChunk m)
      (if m.nonlinear_diffusion_flag then
        ["convNonLinDiffZero", "convNonlinDiffN",
         "convNonlinDiffExponent", "convNonlinDiffHillN",
         "convNonlinDiffHillK"] else []) := by
  unfold nonlinChunk
  apply so_ite _ _ _ _ _ _ SectionsInOrder.nil
  refine SectionsInOrder.sec _ _ [] _ _ ?_ (by simp) ?_
  · apply headerFor_of_prefix
    simp only [String.data_append, List.append_assoc]
    exact prefix_extend _ (by decide)
  refine SectionsInOrder.sec _ _ [] _ _ ?_ (by simp) ?_
  · apply headerFor_of_prefix
    simp only [String.data_append, List.append_assoc]
    exact prefix_extend _ (by decide)
  refine SectionsInOrder.sec _ _ [] _ _ ?_ (by simp) ?_
  · apply headerFor_of_prefix
    simp only [String.data_append, List.append_assoc]
    exact prefix_extend _ (by decide)
  refine SectionsInOrder.sec _ _ [] _ _ ?_ (by simp) ?_
  · apply headerFor_of_prefix
    simp only [String.data_append, List.append_assoc]
    exact prefix_extend _ (by decide)
  refine SectionsInOrder.sec _ _ [] _ _ ?_ (by simp) SectionsInOrder.nil
  apply headerFor_of_prefix
  simp only [String.data_append, List.append_assoc]
  exact prefix_extend _ (by decide)

/-- The noiseVariance block is one section when present. -/
theorem noiseChunk_so (m : ModelE) :
    SectionsInOrder (noiseChunk m)
      (if m.noise_variance_flag then ["noiseVariance"] else []) := by
  unfold noiseChunk
  apply so_ite _ _ _ _ _ _ SectionsInOrder.nil
  refine SectionsInOrder.sec _ _ [] _ _ ?_ (by simp) SectionsInOrder.nil
  apply headerFor_of_prefix
  simp only [String.data_append, List.append_assoc]
  exact prefix_extend _ (by decide)

/-- The neutral-drift block is two sections when present. -/
theorem neutralChunk_so (m : ModelE) :
    SectionsInOrder (neutralChunk m)
      (if m.neutral_drift_flag then ["neutralDrift", "neutralDriftSigma"]
       else []) := by
  unfold neutralChunk
  apply so_ite _ _ _ _ _ _ SectionsInOrder.nil
  refine SectionsInOrder.sec _ _ [] _ _ ?_ (by simp) ?_
  · exact headerFor_of_prefix _ _ (by decide)
  refine SectionsInOrder.sec _ _ [] _ _ ?_ (by simp) SectionsInOrder.nil
  apply headerFor_of_prefix
  simp only [String.data_append, List.append_assoc]
  exact prefix_extend _ (by decide)

/-- The OBJECTIVE_STYLE block is one section (the body line is the
objective style value, assumed distinct from the marker). -/
theorem objStyleChunk_so (m : ModelE) (hobj : m.obj_style ≠ "//") :
    SectionsInOrder (objStyleChunk m) ["OBJECTIVE_STYLE"] := by
  refine SectionsInOrder.sec _ _ [m.obj_style] [] []
    (Or.inl rfl) ?_ SectionsInOrder.nil
  intro l hl
  have hle : l = m.obj_style := by simpa using hl
  rw [hle]
  exact hobj

/-- The OPTIMIZER block is one section with an empty body. -/
theorem optimizerChunk_so (m : ModelE) :
    SectionsInOrder (optimizerChunk m) ["OPTIMIZER"] := by
  refine SectionsInOrder.sec _ _ [] [] [] ?_ (by simp)
    SectionsInOrder.nil
  apply headerFor_of_prefix
  simp only [String.data_append, List.append_assoc]
  exact prefix_extend _ (by decide)

/-- Claim C7: `model.write_comets_model` emits its sections in exactly
the canonical order SMATRIX, BOUNDS, OBJECTIVE, METABOLITE_NAMES,
REACTION_NAMES, EXCHANGE_REACTIONS, then, under the corresponding
flags, VMAX_VALUES, KM_VALUES, HILL_VALUES, LIGHT,
MET_REACTION_SIGNAL, the convection keys, the nonlinear-diffusion
keys, noiseVariance, neutralDrift with neutralDriftSigma, and finally
OBJECTIVE_STYLE and OPTIMIZER, every emitted section terminated by a
`//` marker line. -/
theorem write_model_section_order (m : ModelE)
    (hobj : m.obj_style ≠ "//") :
    SectionsInOrder (writeModelLines m) (expectedHeaders m) := by
  have h : SectionsInOrder (writeModelLines m)
      (["SMATRIX"] ++ ["BOUNDS"] ++ ["OBJECTIVE"] ++
        ["METABOLITE_NAMES"] ++ ["REACTION_NAMES"] ++
        ["EXCHANGE_REACTIONS"] ++
        (if m.vmax_flag then ["VMAX_VALUES"] else []) ++
        (if m.km_flag then ["KM_VALUES"] else []) ++
        (if m.hill_flag then ["HILL_VALUES"] else []) ++
        (if m.light_flag then ["LIGHT"] else []) ++
        (if m.signals.isEmpty then [] else ["MET_REACTION_SIGNAL"]) ++
        (if m.convection_flag then
          ["packedDensity", "elasticModulus", "frictionConstant",
           "convDiffConstant"] else []) ++
        (if m.nonlinear_diffusion_flag then
          ["convNonLinDiffZero", "convNonlinDiffN",
           "convNonlinDiffExponent", "convNonlinDiffHillN",
           "convNonlinDiffHillK"] else []) ++
        (if m.noise_variance_flag then ["noiseVariance"] else []) ++
        (if m.neutral_drift_flag then
          ["neutralDrift", "neutralDriftSigma"] else []) ++
        ["OBJECTIVE_STYLE"] ++ ["OPTIMIZER"]) := by
    unfold writeModelLines
    exact so_append (so_append (so_append (so_append (so_append
      (so_append (so_append (so_append (so_append (so_append
      (so_append (so_append (so_append (so_append (so_append
      (so_append (smatChunk_so m) (boundsChunk_so m))
        (objectiveChunk_so m)) (metNamesChunk_so m))
        (rxnNamesChunk_so m)) (exchChunk_so m)) (vmaxChunk_so m))
        (kmChunk_so m)) (hillChunk_so m)) (lightChunk_so m))
        (signalsChunk_so m)) (convectionChunk_so m)) (nonlinChunk_so m))
        (noiseChunk_so m)) (neutralChunk_so m))
        (objStyleChunk_so m hobj)) (optimizerChunk_so m)
  have he : (["SMATRIX"] ++ ["BOUNDS"] ++ ["OBJECTIVE"] ++
      ["METABOLITE_NAMES"] ++ ["REACTION_NAMES"] ++
      ["EXCHANGE_REACTIONS"] ++
      (if m.vmax_flag then ["VMAX_VALUES"] else []) ++
      (if m.km_flag then ["KM_VALUES"] else []) ++
      (if m.hill_flag then ["HILL_VALUES"] else []) ++
      (if m.light_flag then ["LIGHT"] else []) ++
      (if m.signals.isEmpty then [] else ["MET_REACTION_SIGNAL"]) ++
      (if m.convection_flag then
        ["packedDensity", "elasticModulus", "frictionConstant",
         "convDiffConstant"] else []) ++
      (if m.nonlinear_diffusion_flag then
        ["convNonLinDiffZero", "convNonlinDiffN",
         "convNonlinDiffExponent", "convNonlinDiffHillN",
         "convNonlinDiffHillK"] else []) ++
      (if m.noise_variance_flag then ["noiseVariance"] else []) ++
      (if m.neutral_drift_flag then
        ["neutralDrift", "neutralDriftSigma"] else []) ++
      ["OBJECTIVE_STYLE"] ++ ["OPTIMIZER"])
      = expectedHeaders m := by
    unfold expectedHeaders
    simp [List.append_assoc]
  rw [← he]
  exact h

/-- Witness for claim C7: a small concrete model with every optional
flag off. -/
theorem write_model_section_order_witness :
    SectionsInOrder
      (writeModelLines
        { id := "m", reactions := [⟨"r1", 1, 0, 1000, true, 1, none,
            none, none⟩],
          metabolites := ["m1"], smat := [(1, 1, -1)], objective := 1,
          obj_style := "MAXIMIZE_OBJECTIVE_FLUX", optimizer := "GUROBI",
          default_bounds := (0, 1000), default_vmax := 10,
          default_km := 1, default_hill := 1, vmax_flag := false,
          km_flag := false, hill_flag := false, light_flag := false,
          light := [], signals := [], convection_flag := false,
          convection_parameters := ⟨1, 1, 1, 1⟩,
          nonlinear_diffusion_flag := false,
          nonlinear_diffusion_parameters := ⟨1, 1, 1, 10, 9/10⟩,
          noise_variance_flag := false, noise_variance := 0,
          neutral_drift_flag := false, neutralDriftSigma := 0 })
      (expectedHeaders
        { id := "m", reactions := [⟨"r1", 1, 0, 1000, true, 1, none,
            none, none⟩],
          metabolites := ["m1"], smat := [(1, 1, -1)], objective := 1,
          obj_style := "MAXIMIZE_OBJECTIVE_FLUX", optimizer := "GUROBI",
          default_bounds := (0, 1000), default_vmax := 10,
          default_km := 1, default_hill := 1, vmax_flag := false,
          km_flag := false, hill_flag := false, light_flag := false,
          light := [], signals := [], convection_flag := false,
          convection_parameters := ⟨1, 1, 1, 1⟩,
          nonlinear_diffusion_flag := false,
          nonlinear_diffusion_parameters := ⟨1, 1, 1, 10, 9/10⟩,
          noise_variance_flag := false, noise_variance := 0,
          neutral_drift_flag := false, neutralDriftSigma := 0 }) :=
  write_model_section_order _ (by decide)

/-! ## Claim C1 -/

/-- A concrete valid model with a Hill coefficient: one metabolite, one
exchange reaction whose HILL is 2, `hill_flag` set (as
`model.change_hill` would leave it), everything else at the
constructor defaults. -/
def hillModel : ModelE :=
  { id := "hm",
    reactions := [⟨"EX_glc", 1, 0, 1000, true, 1, none, none, some 2⟩],
    metabolites := ["glc_e"], smat := [(1, 1, -1)], objective := 1,
    obj_style := "MAXIMIZE_OBJECTIVE_FLUX", optimizer := "GUROBI",
    default_bounds := (0, 1000), default_vmax := 10, default_km := 1,
    default_hill := 1, vmax_flag := false, km_flag := false,
    hill_flag := true, light_flag := false, light := [], signals := [],
    convection_flag := false, convection_parameters := ⟨1, 1, 1, 1⟩,
    nonlinear_diffusion_flag := false,
    nonlinear_diffusion_parameters := ⟨1, 1, 1, 10, 9/10⟩,
    noise_variance_flag := false, noise_variance := 0,
    neutral_drift_flag := false, neutralDriftSigma := 0 }

set_option maxRecDepth 100000 in
/-- Claim C1 fails on the code: `model.write_comets_model` stores the
Hill section under the keyword `HILL_VALUES` (comets.py line 705), but
`model.read_comets_model` recognizes the Hill section only by the
substring `HILL_COEFFICIENTS` (comets.py line 511).  Writing
`hillModel` therefore produces a file that does contain a
`HILL_VALUES` section, yet reading it back leaves the hill flag false
(and every HILL at NaN, `default_hill` at its default), so
`read(write(m)) ≠ m` for any model with hill data. -/
theorem hill_roundtrip_divergence :
    hillModel.hill_flag = true
    ∧ strContainsSub (linesepJoin (writeModelLines hillModel))
        "HILL_VALUES" = true
    ∧ readHillFlagOfFile (writeModelLines hillModel) = false := by
  refine ⟨rfl, ?_, ?_⟩ <;> decide

end Comets
